import Mathlib

/-!
Shallow embedding of the StarkNet SQL sandbox engine (parser, validator,
cache, rate limiter, optimizer, indexer backfill) and proofs about its
specification claims.

Sources embedded:
  * src/src/services/sqlParser.ts      (StarkNetSQLParser)
  * src/unnamed/part_009               (QueryErrorHandler)
  * src/unnamed/part_010               (SQLSandboxService.buildSQLFromParsed, QueryCache, QueryOptimizer)
  * src/src/services/querySandbox.ts   (QueryExecutionSandbox)
  * src/unnamed/part_002               (StarkNetIndexer.backfillBlocks)

JavaScript strings are modelled as Lean `String` (ASCII-faithful:
`toUpperCase`/`toLowerCase` are modelled by `Char.toUpper`/`Char.toLower`,
which agree with JS on ASCII, the only characters appearing in SQL keywords).
`Date.now()` values are passed in explicitly as `Int` parameters.
Index-based `while` loops from the source are modelled as fuel-based
recursions; every source loop advances its index by at least one per
iteration, so fuel `tokens.length + 1` reproduces the loop exactly.
-/

namespace Stark

/-! ## JS string primitives -/

/-- JS whitespace class (the ASCII part of `\s`). -/
def isWsChar (c : Char) : Bool :=
  c == ' ' || c == '\t' || c == '\n' || c == '\r' || c == '\x0b' || c == '\x0c'

/-- `String.prototype.toUpperCase` (ASCII). -/
def jsToUpper (s : String) : String := ⟨s.data.map Char.toUpper⟩

/-- `String.prototype.toLowerCase` (ASCII). -/
def jsToLower (s : String) : String := ⟨s.data.map Char.toLower⟩

/-- `String.prototype.trim`. -/
def jsTrim (s : String) : String :=
  ⟨((s.data.dropWhile isWsChar).reverse.dropWhile isWsChar).reverse⟩

/-- `replace(/\s+/g, ' ')`: each maximal whitespace run becomes one space.
The Boolean argument records whether the previous character was whitespace
(i.e. whether we are inside a run that already emitted its space). -/
def collapseWsGo : List Char → Bool → List Char
  | [], _ => []
  | c :: cs, prevWs =>
    if isWsChar c then
      if prevWs then collapseWsGo cs true else ' ' :: collapseWsGo cs true
    else c :: collapseWsGo cs false

def collapseWs (cs : List Char) : List Char := collapseWsGo cs false

/-- JS `parseInt(s)` (radix 10): optional sign then a digit prefix; `none` is NaN. -/
def parseIntJS (s : String) : Option Int :=
  let cs := s.data.dropWhile isWsChar
  let signAndRest : Int × List Char :=
    match cs with
    | '-' :: rest => (-1, rest)
    | '+' :: rest => (1, rest)
    | _ => (1, cs)
  let digits := signAndRest.2.takeWhile Char.isDigit
  if digits.isEmpty then none
  else some (signAndRest.1 * digits.foldl (fun (acc : Int) c => acc * 10 + ((c.toNat : Int) - 48)) 0)

/-! ## StarkNetSQLParser (src/src/services/sqlParser.ts) -/

inductive QueryType where
  | SELECT | INSERT | UPDATE | DELETE | CREATE | DROP | ALTER
deriving DecidableEq, Repr

structure WhereCondition where
  column : String
  operator : String
  value : String
  logicalOperator : Option String
deriving DecidableEq, Repr

structure JoinClause where
  type : String
  table : String
  onClause : String
deriving DecidableEq, Repr

structure OrderByClause where
  column : String
  direction : String
deriving DecidableEq, Repr

structure ParsedQuery where
  type : QueryType
  tables : List String
  columns : List String
  conditions : List WhereCondition
  joins : List JoinClause
  orderBy : List OrderByClause
  groupBy : List String
  having : List WhereCondition
  limit : Option Int
  offset : Option Int
  isValid : Bool
  errors : List String
  estimatedComplexity : Int
deriving DecidableEq, Repr

/-- The initial `result` record built at the top of `parse`. -/
def emptyParsed : ParsedQuery :=
  { type := .SELECT, tables := [], columns := [], conditions := [], joins := []
    orderBy := [], groupBy := [], having := [], limit := none, offset := none
    isValid := true, errors := [], estimatedComplexity := 0 }

/-- `STARKNET_SCHEMAS` table names with their columns and indexed columns. -/
def STARKNET_SCHEMAS : List (String × List String × List String) :=
  [ ("blocks",
     ["block_hash", "block_number", "timestamp", "parent_hash", "sequencer_address", "state_root", "transaction_count"],
     ["block_number", "timestamp", "block_hash"]),
    ("transactions",
     ["transaction_hash", "block_number", "transaction_index", "type", "sender_address", "calldata", "signature", "max_fee", "version", "nonce"],
     ["transaction_hash", "block_number", "sender_address", "type"]),
    ("events",
     ["transaction_hash", "event_index", "from_address", "keys", "data", "block_number", "timestamp"],
     ["transaction_hash", "from_address", "block_number"]),
    ("contracts",
     ["contract_address", "class_hash", "deployed_at_block", "deployer_address", "constructor_calldata"],
     ["contract_address", "class_hash", "deployed_at_block"]),
    ("storage_diffs",
     ["contract_address", "storage_key", "old_value", "new_value", "block_number", "transaction_hash"],
     ["contract_address", "storage_key", "block_number"]) ]

/-- `Object.keys(STARKNET_SCHEMAS)`. -/
def validTableNames : List String := STARKNET_SCHEMAS.map (·.1)

def sqlOperators : List String :=
  ["=", "!=", "<>", "<", ">", "<=", ">=", "LIKE", "IN", "BETWEEN", "IS"]

/-- `normalizeQuery`: collapse whitespace, replace newlines, trim, uppercase. -/
def normalizeQuery (query : String) : String :=
  jsToUpper (jsTrim ⟨(collapseWs query.data).map (fun c => if c == '\n' then ' ' else c)⟩)

/-- The character loop of `tokenize` (split by spaces, preserve quoted strings).
After a closing quote the JS code resets `quoteChar` to the empty string; since
`quoteChar` is only consulted while `inQuotes` is set, resetting it to a space
is observably identical. -/
def tokenizeGo : List Char → List Char → Bool → Char → List String → List String
  | [], current, _, _, tokens =>
    let t := jsTrim ⟨current⟩
    if t ≠ "" then tokens ++ [t] else tokens
  | c :: cs, current, inQuotes, quoteChar, tokens =>
    if (c == '"' || c == '\'') && !inQuotes then
      tokenizeGo cs (current ++ [c]) true c tokens
    else if c == quoteChar && inQuotes then
      tokenizeGo cs (current ++ [c]) false ' ' tokens
    else if c == ' ' && !inQuotes then
      let t := jsTrim ⟨current⟩
      if t ≠ "" then tokenizeGo cs [] inQuotes quoteChar (tokens ++ [t])
      else tokenizeGo cs current inQuotes quoteChar tokens
    else
      tokenizeGo cs (current ++ [c]) inQuotes quoteChar tokens

def tokenize (query : String) : List String :=
  tokenizeGo query.data [] false ' ' []

/-- `getQueryType`: note the `default` case maps unrecognized first tokens to SELECT. -/
def getQueryType (firstToken : String) : QueryType :=
  let t := jsToUpper firstToken
  if t = "SELECT" then .SELECT
  else if t = "INSERT" then .INSERT
  else if t = "UPDATE" then .UPDATE
  else if t = "DELETE" then .DELETE
  else if t = "CREATE" then .CREATE
  else if t = "DROP" then .DROP
  else if t = "ALTER" then .ALTER
  else .SELECT

/-- The `while` loop of `parseWhereClause`; returns the final index and conditions. -/
def parseWhereLoop (tokens : List String) : Nat → Nat → List WhereCondition → Nat × List WhereCondition
  | 0, i, conds => (i, conds)
  | fuel + 1, i, conds =>
    if i < tokens.length then
      let token := jsToUpper (tokens.getD i "")
      if ["ORDER", "GROUP", "HAVING", "LIMIT"].contains token then (i, conds)
      else if i + 2 < tokens.length && sqlOperators.contains (jsToUpper (tokens.getD (i + 1) "")) then
        let lop :=
          if i + 3 < tokens.length && ["AND", "OR"].contains (jsToUpper (tokens.getD (i + 3) "")) then
            some (jsToUpper (tokens.getD (i + 3) ""))
          else none
        let conds := conds ++ [⟨tokens.getD i "", tokens.getD (i + 1) "", tokens.getD (i + 2) "", lop⟩]
        let j := i + 3
        let j := if j < tokens.length && ["AND", "OR"].contains (jsToUpper (tokens.getD j "")) then j + 1 else j
        parseWhereLoop tokens fuel j conds
      else parseWhereLoop tokens fuel (i + 1) conds
    else (i, conds)

def joinOnStopWords : List String :=
  ["WHERE", "ORDER", "GROUP", "LIMIT", "INNER", "LEFT", "RIGHT", "FULL"]

/-- The ON-expression collection loop inside `parseJoinClause`. -/
def collectOnLoop (tokens : List String) : Nat → Nat → String → Nat × String
  | 0, i, acc => (i, acc)
  | fuel + 1, i, acc =>
    if i < tokens.length && !(joinOnStopWords.contains (jsToUpper (tokens.getD i ""))) then
      collectOnLoop tokens fuel (i + 1) (acc ++ tokens.getD i "" ++ " ")
    else (i, acc)

/-- `parseJoinClause`: returns the final index and the joins list. -/
def parseJoinClause (tokens : List String) (startIndex : Nat) (joins : List JoinClause) :
    Nat × List JoinClause :=
  let joinType := jsToUpper (tokens.getD startIndex "")
  let i := startIndex + 1
  if i < tokens.length && jsToUpper (tokens.getD i "") = "JOIN" then
    let i := i + 1
    if i < tokens.length then
      let table := tokens.getD i ""
      let i := i + 1
      if i < tokens.length && jsToUpper (tokens.getD i "") = "ON" then
        let res := collectOnLoop tokens (tokens.length + 1) (i + 1) ""
        (res.1, joins ++ [⟨joinType, table, jsTrim res.2⟩])
      else (i, joins)
    else (i, joins)
  else (i, joins)

/-- The column loop of `parseOrderBy`. -/
def orderByLoop (tokens : List String) : Nat → Nat → List OrderByClause → Nat × List OrderByClause
  | 0, i, acc => (i, acc)
  | fuel + 1, i, acc =>
    if i < tokens.length && !(["GROUP", "LIMIT"].contains (jsToUpper (tokens.getD i ""))) then
      if tokens.getD i "" ≠ "," then
        let column := tokens.getD i ""
        let direction :=
          if i + 1 < tokens.length && ["ASC", "DESC"].contains (jsToUpper (tokens.getD (i + 1) "")) then
            jsToUpper (tokens.getD (i + 1) "")
          else "ASC"
        let j := if direction ≠ "ASC" then i + 1 else i
        orderByLoop tokens fuel (j + 1) (acc ++ [⟨column, direction⟩])
      else orderByLoop tokens fuel (i + 1) acc
    else (i, acc)

def parseOrderBy (tokens : List String) (startIndex : Nat) (orderBy : List OrderByClause) :
    Nat × List OrderByClause :=
  let i := startIndex + 1
  if i < tokens.length && jsToUpper (tokens.getD i "") = "BY" then
    orderByLoop tokens (tokens.length + 1) (i + 1) orderBy
  else (i, orderBy)

/-- The column loop of `parseGroupBy`. -/
def groupByLoop (tokens : List String) : Nat → Nat → List String → Nat × List String
  | 0, i, acc => (i, acc)
  | fuel + 1, i, acc =>
    if i < tokens.length && !(["HAVING", "ORDER", "LIMIT"].contains (jsToUpper (tokens.getD i ""))) then
      if tokens.getD i "" ≠ "," then groupByLoop tokens fuel (i + 1) (acc ++ [tokens.getD i ""])
      else groupByLoop tokens fuel (i + 1) acc
    else (i, acc)

def parseGroupBy (tokens : List String) (startIndex : Nat) (groupBy : List String) :
    Nat × List String :=
  let i := startIndex + 1
  if i < tokens.length && jsToUpper (tokens.getD i "") = "BY" then
    groupByLoop tokens (tokens.length + 1) (i + 1) groupBy
  else (i, groupBy)

/-- `parseLimit` (also parses a trailing OFFSET). -/
def parseLimit (tokens : List String) (startIndex : Nat) (r : ParsedQuery) : Nat × ParsedQuery :=
  let i := startIndex + 1
  if i < tokens.length then
    match parseIntJS (tokens.getD i "") with
    | some limitValue =>
      let r := { r with limit := some limitValue }
      let i := i + 1
      if i < tokens.length && jsToUpper (tokens.getD i "") = "OFFSET" then
        let i := i + 1
        if i < tokens.length then
          match parseIntJS (tokens.getD i "") with
          | some offsetValue => (i + 1, { r with offset := some offsetValue })
          | none => (i, r)
        else (i, r)
      else (i, r)
    | none => (i, r)
  else (i, r)

/-- The column loop at the top of `parseSelectQuery` (tokens up to FROM). -/
def selectColumnsLoop (tokens : List String) : Nat → Nat → List String → Nat × List String
  | 0, i, cols => (i, cols)
  | fuel + 1, i, cols =>
    if i < tokens.length && jsToUpper (tokens.getD i "") ≠ "FROM" then
      if tokens.getD i "" ≠ "," then selectColumnsLoop tokens fuel (i + 1) (cols ++ [tokens.getD i ""])
      else selectColumnsLoop tokens fuel (i + 1) cols
    else (i, cols)

/-- The tables/joins/clauses loop of `parseSelectQuery`.  The WHERE, ORDER and
LIMIT branches `break` out of the loop; the JOIN and GROUP branches fall through
to the loop's `i++`. -/
def selectMainLoop (tokens : List String) : Nat → Nat → ParsedQuery → ParsedQuery
  | 0, _, r => r
  | fuel + 1, i, r =>
    if i < tokens.length then
      let token := jsToUpper (tokens.getD i "")
      if token = "WHERE" then
        { r with conditions := (parseWhereLoop tokens (tokens.length + 1) (i + 1) r.conditions).2 }
      else if ["INNER", "LEFT", "RIGHT", "FULL"].contains token then
        let res := parseJoinClause tokens i r.joins
        selectMainLoop tokens fuel (res.1 + 1) { r with joins := res.2 }
      else if token = "ORDER" then
        { r with orderBy := (parseOrderBy tokens i r.orderBy).2 }
      else if token = "GROUP" then
        let res := parseGroupBy tokens i r.groupBy
        selectMainLoop tokens fuel (res.1 + 1) { r with groupBy := res.2 }
      else if token = "LIMIT" then
        (parseLimit tokens i r).2
      else if !(["JOIN", "BY"].contains token) then
        selectMainLoop tokens fuel (i + 1) { r with tables := r.tables ++ [tokens.getD i ""] }
      else selectMainLoop tokens fuel (i + 1) r
    else r

def parseSelectQuery (tokens : List String) (r : ParsedQuery) : ParsedQuery :=
  let cl := selectColumnsLoop tokens (tokens.length + 1) 1 r.columns
  let i := cl.1
  let r := { r with columns := cl.2 }
  if i ≥ tokens.length ∨ jsToUpper (tokens.getD i "") ≠ "FROM" then
    { r with errors := r.errors ++ ["Missing FROM clause"], isValid := false }
  else
    selectMainLoop tokens (tokens.length + 1) (i + 1) r

/-- `validateTables`: every referenced table must be a StarkNet schema table. -/
def validateTables (r : ParsedQuery) : ParsedQuery :=
  r.tables.foldl
    (fun acc table =>
      if !(validTableNames.contains (jsToLower table)) then
        { acc with
          errors := acc.errors ++
            ["Unknown table: " ++ table ++ ". Available tables: " ++
             String.intercalate ", " validTableNames]
          isValid := false }
      else acc)
    r

/-- JS falsiness of the numeric `limit` field (`undefined` or `0`). -/
def limitFalsy : Option Int → Bool
  | none => true
  | some l => l == 0

/-- `calculateComplexity`. -/
def calculateComplexity (r : ParsedQuery) : Int :=
  let complexity : Int :=
    1 + (r.tables.length : Int) * 2 + (r.joins.length : Int) * 5 +
      (r.conditions.length : Int) * 2 + (r.groupBy.length : Int) * 3 +
      (r.orderBy.length : Int) * 2
  if limitFalsy r.limit || (r.limit.getD 0 > 1000) then complexity + 10 else complexity

def MAX_COMPLEXITY : Int := 50
def MAX_LIMIT : Int := 10000
def DEFAULT_LIMIT : Int := 1000

/-- `applyResourceLimits`. -/
def applyResourceLimits (r : ParsedQuery) : ParsedQuery :=
  let r :=
    if r.estimatedComplexity > MAX_COMPLEXITY then
      { r with
        errors := r.errors ++
          ["Query too complex (" ++ toString r.estimatedComplexity ++ "). Maximum allowed: " ++
           toString MAX_COMPLEXITY]
        isValid := false }
    else r
  if limitFalsy r.limit then { r with limit := some DEFAULT_LIMIT }
  else if r.limit.getD 0 > MAX_LIMIT then
    { r with
      errors := r.errors ++
        ["LIMIT too large (" ++ toString (r.limit.getD 0) ++ "). Maximum allowed: " ++
         toString MAX_LIMIT]
      isValid := false }
  else r

/-- `StarkNetSQLParser.parse`.  Nothing in the embedded body can throw, so the
source's `try`/`catch` wrapper is the identity here. -/
def parse (query : String) : ParsedQuery :=
  let tokens := tokenize (normalizeQuery query)
  if tokens.length = 0 then
    { emptyParsed with isValid := false, errors := ["Empty query"] }
  else
    let qt := getQueryType (tokens.getD 0 "")
    let r : ParsedQuery := { emptyParsed with type := qt }
    if qt ≠ QueryType.SELECT then
      { r with isValid := false, errors := r.errors ++ ["Only SELECT queries are allowed in the sandbox"] }
    else
      let r := parseSelectQuery tokens r
      let r := validateTables r
      let r := { r with estimatedComplexity := calculateComplexity r }
      applyResourceLimits r

/-! ## QueryErrorHandler (src/unnamed/part_009)

The validator tests a fixed list of JS regexes against the raw query text.
We embed the exact regexes used by `validateQuery` with a small backtracking
matcher over `List Char`.  All the regexes carry the `/i` flag, so the matcher
runs on the lower-cased text with lower-cased literals.  Alternations such as
`(union|select)` are expanded into one pattern per alternative (a boolean-
equivalent presentation of the same regex). -/

/-- JS `\w` (ASCII word character). -/
def isWordChar (c : Char) : Bool :=
  ('a' ≤ c && c ≤ 'z') || ('A' ≤ c && c ≤ 'Z') || c.isDigit || c == '_'

/-- JS `.` (anything but a line terminator). -/
def notNewline (c : Char) : Bool :=
  !(c == '\n' || c == '\r' || c.toNat == 0x2028 || c.toNat == 0x2029)

/-- Regex atoms used by the validator's patterns:
`lit` literal, `ws1`/`ws0` are `\s+`/`\s*`, `word1`/`word0` are `\w+`/`\w*`,
`digit1`/`digit0` are `\d+`/`\d*`, `dot0` is `.*`, `quoteCls` is `['"]`,
`rep1quote`/`rep0quote` are `('|(\'))+` and its repetition tail. -/
inductive RTok where
  | lit (s : String)
  | ws1 | ws0
  | word1 | word0
  | digit1 | digit0
  | dot0
  | quoteCls
  | rep1quote | rep0quote
deriving DecidableEq, Repr

/-- Backtracking matcher: does the pattern match a prefix of the text?
Every recursive call strictly decreases `pats.length + cs.length`, so the
fuel-counted recursion below, run with fuel `pats.length + cs.length + 1`
(see `matchPat`), never reaches the fuel-exhausted clause. -/
def matchPatF : Nat → List RTok → List Char → Bool
  | 0, _, _ => false
  | _ + 1, [], _ => true
  | fuel + 1, .lit s :: ps, cs => s.data.isPrefixOf cs && matchPatF fuel ps (cs.drop s.data.length)
  | _ + 1, .ws1 :: _, [] => false
  | fuel + 1, .ws1 :: ps, c :: cs => isWsChar c && matchPatF fuel (.ws0 :: ps) cs
  | fuel + 1, .ws0 :: ps, [] => matchPatF fuel ps []
  | fuel + 1, .ws0 :: ps, c :: cs =>
    matchPatF fuel ps (c :: cs) || (isWsChar c && matchPatF fuel (.ws0 :: ps) cs)
  | _ + 1, .word1 :: _, [] => false
  | fuel + 1, .word1 :: ps, c :: cs => isWordChar c && matchPatF fuel (.word0 :: ps) cs
  | fuel + 1, .word0 :: ps, [] => matchPatF fuel ps []
  | fuel + 1, .word0 :: ps, c :: cs =>
    matchPatF fuel ps (c :: cs) || (isWordChar c && matchPatF fuel (.word0 :: ps) cs)
  | _ + 1, .digit1 :: _, [] => false
  | fuel + 1, .digit1 :: ps, c :: cs => c.isDigit && matchPatF fuel (.digit0 :: ps) cs
  | fuel + 1, .digit0 :: ps, [] => matchPatF fuel ps []
  | fuel + 1, .digit0 :: ps, c :: cs =>
    matchPatF fuel ps (c :: cs) || (c.isDigit && matchPatF fuel (.digit0 :: ps) cs)
  | fuel + 1, .dot0 :: ps, [] => matchPatF fuel ps []
  | fuel + 1, .dot0 :: ps, c :: cs =>
    matchPatF fuel ps (c :: cs) || (notNewline c && matchPatF fuel (.dot0 :: ps) cs)
  | _ + 1, .quoteCls :: _, [] => false
  | fuel + 1, .quoteCls :: ps, c :: cs => (c == '\'' || c == '"') && matchPatF fuel ps cs
  | fuel + 1, .rep1quote :: ps, '\'' :: cs => matchPatF fuel (.rep0quote :: ps) cs
  | fuel + 1, .rep1quote :: ps, '\\' :: '\'' :: cs => matchPatF fuel (.rep0quote :: ps) cs
  | _ + 1, .rep1quote :: _, _ => false
  | fuel + 1, .rep0quote :: ps, '\'' :: cs =>
    matchPatF fuel ps ('\'' :: cs) || matchPatF fuel (.rep0quote :: ps) cs
  | fuel + 1, .rep0quote :: ps, '\\' :: '\'' :: cs =>
    matchPatF fuel ps ('\\' :: '\'' :: cs) || matchPatF fuel (.rep0quote :: ps) cs
  | fuel + 1, .rep0quote :: ps, cs => matchPatF fuel ps cs

def matchPat (pats : List RTok) (cs : List Char) : Bool :=
  matchPatF (pats.length + cs.length + 1) pats cs

/-- A `\b` before a word-character-initial group holds when the previous
character (if any) is not a word character. -/
def boundaryOk : Option Char → Bool
  | none => true
  | some c => !isWordChar c

/-- `RegExp.prototype.test`: try the pattern at every start position (tracking
the previous character for leading `\b`). -/
def scanPat (pats : List RTok) (needBoundary : Bool) : Option Char → List Char → Bool
  | prev, [] => (!needBoundary || boundaryOk prev) && matchPat pats []
  | prev, c :: cs =>
    ((!needBoundary || boundaryOk prev) && matchPat pats (c :: cs)) ||
      scanPat pats needBoundary (some c) cs

/-- Case-insensitive whole-string regex test. -/
def testPat (pats : List RTok) (needBoundary : Bool) (query : String) : Bool :=
  scanPat pats needBoundary none (jsToLower query).data

/-- The `dangerousPatterns` list of `validateQuery`, in source order. -/
def dangerousPatterns : List (List RTok) :=
  [ [.lit "drop", .ws1, .lit "table"],
    [.lit "delete", .ws1, .lit "from"],
    [.lit "update", .ws1, .word1, .ws1, .lit "set"],
    [.lit "insert", .ws1, .lit "into"],
    [.lit "create", .ws1, .lit "table"],
    [.lit "alter", .ws1, .lit "table"],
    [.lit "truncate"],
    [.lit "exec", .ws0, .lit "("],
    [.lit "execute", .ws0, .lit "("],
    [.lit "xp_cmdshell"],
    [.lit "sp_executesql"] ]

/-- Injection pattern 1: `/('|(\\'))+.*(;|--|\/\*|\*\/)/i`. -/
def injQuoteComment (query : String) : Bool :=
  testPat [.rep1quote, .dot0, .lit ";"] false query ||
  testPat [.rep1quote, .dot0, .lit "--"] false query ||
  testPat [.rep1quote, .dot0, .lit "/*"] false query ||
  testPat [.rep1quote, .dot0, .lit "*/"] false query

/-- Injection pattern 2: `/(union|select).*(from|where)/i`. -/
def injUnionSelect (query : String) : Bool :=
  testPat [.lit "union", .dot0, .lit "from"] false query ||
  testPat [.lit "union", .dot0, .lit "where"] false query ||
  testPat [.lit "select", .dot0, .lit "from"] false query ||
  testPat [.lit "select", .dot0, .lit "where"] false query

/-- Injection pattern 3: `/\b(or|and)\s+\d+\s*=\s*\d+/i`. -/
def injOrAndNum (query : String) : Bool :=
  testPat [.lit "or", .ws1, .digit1, .ws0, .lit "=", .ws0, .digit1] true query ||
  testPat [.lit "and", .ws1, .digit1, .ws0, .lit "=", .ws0, .digit1] true query

/-- Injection pattern 4: `/\b(or|and)\s+['"].*['"].*['"].*['"]/i`. -/
def injOrAndQuote (query : String) : Bool :=
  testPat [.lit "or", .ws1, .quoteCls, .dot0, .quoteCls, .dot0, .quoteCls, .dot0, .quoteCls] true query ||
  testPat [.lit "and", .ws1, .quoteCls, .dot0, .quoteCls, .dot0, .quoteCls, .dot0, .quoteCls] true query

/-- Injection pattern 5: `/\b(having|where)\s+\d+\s*=\s*\d+/i`. -/
def injHavingWhere (query : String) : Bool :=
  testPat [.lit "having", .ws1, .digit1, .ws0, .lit "=", .ws0, .digit1] true query ||
  testPat [.lit "where", .ws1, .digit1, .ws0, .lit "=", .ws0, .digit1] true query

/-- The injection loop of `validateQuery` pushes one warning for the first
matching pattern and then breaks, so a warning is pushed iff some pattern
matches. -/
def injectionDetected (query : String) : Bool :=
  injQuoteComment query || injUnionSelect query || injOrAndNum query ||
  injOrAndQuote query || injHavingWhere query

inductive ErrorType where
  | SYNTAX_ERROR | VALIDATION_ERROR | EXECUTION_ERROR | TIMEOUT_ERROR | RATE_LIMIT_ERROR
  | PERMISSION_ERROR | RESOURCE_ERROR | CONNECTION_ERROR | DATA_ERROR
deriving DecidableEq, Repr

/-- `QueryError` (the `timestamp`, `details` and `stackTrace` fields, which
only capture wall-clock/debug data, are omitted). -/
structure QueryError where
  type : ErrorType
  message : String
  code : String
deriving DecidableEq, Repr

structure ValidationResult where
  isValid : Bool
  errors : List QueryError
  warnings : List String
deriving DecidableEq, Repr

def injectionWarning : String :=
  "Query contains patterns that might indicate SQL injection attempt"

def validatorLargeTables : List String := ["transactions", "events", "storage_diffs"]

/-- `/LIMIT\s+\d+/i`. -/
def hasLimitClause (query : String) : Bool :=
  testPat [.lit "limit", .ws1, .digit1] false query

/-- `` new RegExp(`FROM\\s+${table}`, 'i') ``. -/
def fromTablePat (table : String) (query : String) : Bool :=
  testPat [.lit "from", .ws1, .lit table] false query

def dangerousOperationError : QueryError :=
  ⟨.PERMISSION_ERROR, "Query contains prohibited operations", "DANGEROUS_OPERATION"⟩

/-- Basic syntax validation: `!query || query.trim().length === 0`. -/
def emptyCheckStage (query : String) (r : ValidationResult) : ValidationResult :=
  if (jsTrim query).length = 0 then
    { r with errors := r.errors ++ [⟨.SYNTAX_ERROR, "Empty query provided", "EMPTY_QUERY"⟩]
             isValid := false }
  else r

/-- One iteration of the dangerous-operations loop. -/
def dangerStep (query : String) (acc : ValidationResult) (pat : List RTok) : ValidationResult :=
  if testPat pat false query then
    { acc with errors := acc.errors ++ [dangerousOperationError], isValid := false }
  else acc

/-- The dangerous-operations loop (all patterns evaluated, one error each). -/
def dangerStage (query : String) (r : ValidationResult) : ValidationResult :=
  dangerousPatterns.foldl (dangerStep query) r

/-- The SQL-injection loop (warning only; first match pushes and breaks). -/
def injectionStage (query : String) (r : ValidationResult) : ValidationResult :=
  if injectionDetected query then { r with warnings := r.warnings ++ [injectionWarning] } else r

/-- The query-length check. -/
def lengthStage (query : String) (r : ValidationResult) : ValidationResult :=
  if query.length > 10000 then
    { r with warnings := r.warnings ++ ["Query is very long and may impact performance"] }
  else r

/-- Missing LIMIT on potentially large tables (first matching table breaks). -/
def missingLimitStage (query : String) (r : ValidationResult) : ValidationResult :=
  if !hasLimitClause query then
    match validatorLargeTables.find? (fun t => fromTablePat t query) with
    | some t =>
      { r with warnings := r.warnings ++ ["Consider adding LIMIT clause when querying " ++ t ++ " table"] }
    | none => r
  else r

/-- `SELECT *` on large tables (first matching table breaks). -/
def selectStarStage (query : String) (r : ValidationResult) : ValidationResult :=
  if testPat [.lit "select", .ws1, .lit "*"] false query then
    match validatorLargeTables.find? (fun t => fromTablePat t query) with
    | some t =>
      { r with warnings := r.warnings ++ ["Consider selecting specific columns instead of * from " ++ t ++ " table"] }
    | none => r
  else r

/-- `QueryErrorHandler.validateQuery`: the checks above, in source order. -/
def validateQuery (query : String) : ValidationResult :=
  selectStarStage query (missingLimitStage query (lengthStage query (injectionStage query
    (dangerStage query (emptyCheckStage query { isValid := true, errors := [], warnings := [] })))))

/-! ## SQLSandboxService.buildSQLFromParsed (src/unnamed/part_010) -/

/-- `tableMapping[table] || 'starknet_transactions'`: every known table and
every fallback maps to `starknet_transactions`. -/
def mapTableName (table : String) : String :=
  let tableMapping : List (String × String) :=
    [ ("blocks", "starknet_transactions"), ("transactions", "starknet_transactions"),
      ("events", "starknet_transactions"), ("contracts", "starknet_transactions"),
      ("storage_diffs", "starknet_transactions") ]
  match tableMapping.find? (fun p => p.1 == table) with
  | some p => p.2
  | none => "starknet_transactions"

/-- One WHERE condition as rendered by `buildSQLFromParsed`. -/
def condSQLText (cond : WhereCondition) : String :=
  let s := cond.column ++ " " ++ cond.operator ++ " '" ++ cond.value ++ "'"
  match cond.logicalOperator with
  | some lop => s ++ " " ++ lop
  | none => s

/-- `buildSQLFromParsed`: the SQL text sent to the storage API. -/
def buildSQLFromParsed (p : ParsedQuery) : String :=
  let mappedTables := p.tables.map mapTableName
  let sql := "SELECT " ++ String.intercalate ", " p.columns ++ " FROM " ++
    String.intercalate ", " mappedTables
  let sql := p.joins.foldl
    (fun sql j => sql ++ " " ++ j.type ++ " JOIN " ++ mapTableName j.table ++ " ON " ++ j.onClause)
    sql
  let sql :=
    if p.conditions.length > 0 then
      sql ++ " WHERE " ++ String.intercalate " " (p.conditions.map condSQLText)
    else sql
  let sql :=
    if p.groupBy.length > 0 then sql ++ " GROUP BY " ++ String.intercalate ", " p.groupBy else sql
  let sql :=
    if p.orderBy.length > 0 then
      sql ++ " ORDER BY " ++ String.intercalate ", " (p.orderBy.map (fun o => o.column ++ " " ++ o.direction))
    else sql
  match p.limit with
  | some l =>
    if l ≠ 0 then
      let sql := sql ++ " LIMIT " ++ toString l
      match p.offset with
      | some o => if o ≠ 0 then sql ++ " OFFSET " ++ toString o else sql
      | none => sql
    else sql
  | none => sql

/-! ## QueryCache (src/unnamed/part_010) -/

/-- JS 32-bit signed wrap (`| 0`, `& hash`, `<<` result range). -/
def toInt32 (n : Int) : Int :=
  let m := n % 4294967296
  if m ≥ 2147483648 then m - 4294967296 else m

/-- One step of `generateQueryHash`:
`hash = ((hash << 5) - hash) + charCode; hash = hash & hash`. -/
def hashStep (h : Int) (c : Char) : Int :=
  toInt32 (toInt32 (h * 32) - h + (c.toNat : Int))

def base36Digit (d : Nat) : Char :=
  if d < 10 then Char.ofNat (48 + d) else Char.ofNat (87 + d)

/-- `Number.prototype.toString(36)` for naturals (fuel-counted: the argument
shrinks by a factor of 36 per step, so fuel `n + 1` always suffices). -/
def natToBase36Go : Nat → Nat → List Char
  | 0, _ => []
  | fuel + 1, n =>
    if n < 36 then [base36Digit n]
    else natToBase36Go fuel (n / 36) ++ [base36Digit (n % 36)]

def natToBase36 (n : Nat) : List Char := natToBase36Go (n + 1) n

/-- `generateQueryHash` (applied by the cache to the lower-cased, trimmed query). -/
def generateQueryHash (query : String) : String :=
  ⟨natToBase36 (query.data.foldl hashStep 0).natAbs⟩

/-- The cache key of a query text. -/
def cacheKey (query : String) : String :=
  generateQueryHash (jsTrim (jsToLower query))

structure CacheEntry (α : Type) where
  query : String
  queryHash : String
  result : List α
  timestamp : Int
  executionTime : Int
  hitCount : Nat
  lastAccessed : Int
deriving DecidableEq, Repr

/-- A JS `Map` keyed by hash: an insertion-ordered association list with
unique keys. -/
abbrev CacheMap (α : Type) := List (String × CacheEntry α)

def mapGet (m : CacheMap α) (k : String) : Option (CacheEntry α) :=
  (List.find? (fun p => p.1 == k) m).map (·.2)

/-- `Map.prototype.set`: update in place if present, else append. -/
def mapSet (m : CacheMap α) (k : String) (v : CacheEntry α) : CacheMap α :=
  if (List.find? (fun p => p.1 == k) m).isSome then
    List.map (fun p => if p.1 == k then (k, v) else p) m
  else m ++ [(k, v)]

def mapDelete (m : CacheMap α) (k : String) : CacheMap α :=
  List.filter (fun p => !(p.1 == k)) m

def maxCacheSize : Nat := 1000

/-- 5 minutes, in milliseconds. -/
def maxCacheAge : Int := 5 * 60 * 1000

/-- `QueryCache.get` at wall-clock `now`: returns the hit (if any) and the
updated map (expired entries are evicted; a hit updates its statistics). -/
def cacheGet (m : CacheMap α) (query : String) (now : Int) :
    Option (CacheEntry α) × CacheMap α :=
  let hash := cacheKey query
  match mapGet m hash with
  | none => (none, m)
  | some entry =>
    if now - entry.timestamp > maxCacheAge then (none, mapDelete m hash)
    else
      let entry' := { entry with hitCount := entry.hitCount + 1, lastAccessed := now }
      (some entry', mapSet m hash entry')

/-- `evictLeastRecentlyUsed` (note the source initialises `oldestTime` to
`Date.now()`, so only entries strictly older than `now` are candidates). -/
def evictLeastRecentlyUsed (m : CacheMap α) (now : Int) : CacheMap α :=
  let sel := m.foldl
    (fun (acc : Option String × Int) p =>
      if p.2.lastAccessed < acc.2 then (some p.1, p.2.lastAccessed) else acc)
    (none, now)
  match sel.1 with
  | some k => mapDelete m k
  | none => m

/-- `QueryCache.set` at wall-clock `now`. -/
def cacheSet (m : CacheMap α) (query : String) (result : List α) (executionTime : Int)
    (now : Int) : CacheMap α :=
  let hash := cacheKey query
  let entry : CacheEntry α :=
    { query := jsTrim query, queryHash := hash, result := result, timestamp := now
      executionTime := executionTime, hitCount := 0, lastAccessed := now }
  let m' := mapSet m hash entry
  if m'.length > maxCacheSize then evictLeastRecentlyUsed m' now else m'

/-- The periodic `cleanup` sweep. -/
def cacheCleanup (m : CacheMap α) (now : Int) : CacheMap α :=
  List.filter (fun p => !(now - p.2.timestamp > maxCacheAge)) m

/-! ## QueryOptimizer (src/unnamed/part_010)

The `estimatedRows` field of the source is a floating-point estimate
(`baseSize *= 0.1`, `Math.pow(0.1, n)`); floating point is not embedded and no
claim depends on it, so the field is omitted here.  All other outputs
(`useIndex`, `suggestedIndexes`, `optimizedQuery`, `warnings`) are exact. -/

structure QueryOptimization where
  useIndex : Bool
  suggestedIndexes : List String
  optimizedQuery : String
  warnings : List String
deriving DecidableEq, Repr

/-- `INDEX_RECOMMENDATIONS` (column keys per table). -/
def indexRecommendations (table : String) : Option (List String) :=
  if table == "blocks" then some ["block_number", "timestamp", "block_hash"]
  else if table == "transactions" then
    some ["transaction_hash", "block_number", "sender_address", "type"]
  else if table == "events" then some ["transaction_hash", "from_address", "block_number"]
  else if table == "contracts" then some ["contract_address", "class_hash", "deployed_at_block"]
  else if table == "storage_diffs" then some ["contract_address", "storage_key", "block_number"]
  else none

def isJoinSplitSep (c : Char) : Bool := c == '=' || isWsChar c

/-- `join.on.split(/[=\s]+/).filter(col => col.length > 0)`. -/
def splitJoinOn (cs : List Char) (cur : List Char) : List String :=
  match cs with
  | [] => if cur.isEmpty then [] else [⟨cur.reverse⟩]
  | c :: cs' =>
    if isJoinSplitSep c then
      if cur.isEmpty then splitJoinOn cs' [] else ⟨cur.reverse⟩ :: splitJoinOn cs' []
    else splitJoinOn cs' (c :: cur)

def optimizerLargeTables : List String := ["transactions", "events", "storage_diffs"]

/-- `generateWarnings`. -/
def generateOptWarnings (p : ParsedQuery) : List String :=
  let w : List String :=
    if p.conditions.length = 0 then
      p.tables.foldl
        (fun w t =>
          if optimizerLargeTables.contains t then
            w ++ ["Consider adding WHERE clause for table '" ++ t ++ "' to improve performance"]
          else w)
        []
    else []
  let w :=
    if p.joins.length > 2 then
      w ++ ["Multiple JOINs detected - consider breaking into smaller queries"]
    else w
  let w :=
    if limitFalsy p.limit || p.limit.getD 0 > 1000 then
      w ++ ["Consider adding LIMIT clause to prevent large result sets"]
    else w
  p.orderBy.foldl
    (fun w ob =>
      let hasIndex := p.tables.any (fun t =>
        match indexRecommendations t with
        | some cols => cols.contains ob.column
        | none => false)
      if !hasIndex then w ++ ["ORDER BY '" ++ ob.column ++ "' may be slow without index"] else w)
    w

/-- `generateOptimizedQuery`. -/
def generateOptimizedQuery (p : ParsedQuery) : String :=
  let s := "SELECT " ++ String.intercalate ", " p.columns ++ "\nFROM " ++
    String.intercalate ", " p.tables
  let s := p.joins.foldl
    (fun s j => s ++ "\n" ++ j.type ++ " JOIN " ++ j.table ++ " ON " ++ j.onClause) s
  let s :=
    if p.conditions.length > 0 then
      s ++ "\nWHERE " ++ String.intercalate " "
        (p.conditions.map (fun cond =>
          let c := cond.column ++ " " ++ cond.operator ++ " " ++ cond.value
          match cond.logicalOperator with
          | some lop => c ++ " " ++ lop
          | none => c))
    else s
  let s := if p.groupBy.length > 0 then s ++ "\nGROUP BY " ++ String.intercalate ", " p.groupBy else s
  let s :=
    if p.orderBy.length > 0 then
      s ++ "\nORDER BY " ++ String.intercalate ", " (p.orderBy.map (fun o => o.column ++ " " ++ o.direction))
    else s
  match p.limit with
  | some l =>
    if l ≠ 0 then
      let s := s ++ "\nLIMIT " ++ toString l
      match p.offset with
      | some o => if o ≠ 0 then s ++ " OFFSET " ++ toString o else s
      | none => s
    else s
  | none => s

/-- `QueryOptimizer.optimize`. -/
def optimize (p : ParsedQuery) : QueryOptimization :=
  let acc : Bool × List String := (false, [])
  let acc := p.tables.foldl
    (fun acc table =>
      match indexRecommendations table with
      | none => acc
      | some cols =>
        let acc := p.conditions.foldl
          (fun (acc : Bool × List String) cond =>
            if cols.contains cond.column then (true, acc.2 ++ [table ++ "." ++ cond.column])
            else acc)
          acc
        p.joins.foldl
          (fun (acc : Bool × List String) j =>
            (splitJoinOn j.onClause.data []).foldl
              (fun (acc : Bool × List String) col =>
                if cols.contains col then (acc.1, acc.2 ++ [table ++ "." ++ col]) else acc)
              acc)
          acc)
    acc
  { useIndex := acc.1, suggestedIndexes := acc.2
    optimizedQuery := generateOptimizedQuery p, warnings := generateOptWarnings p }

/-! ## QueryExecutionSandbox (src/src/services/querySandbox.ts) -/

structure SandboxConfig where
  maxExecutionTime : Nat
  maxMemoryUsage : Nat
  maxResultRows : Nat
  allowedTables : List String
  rateLimitPerMinute : Nat
deriving DecidableEq, Repr

/-- The constructor defaults. -/
def defaultSandboxConfig : SandboxConfig :=
  { maxExecutionTime := 30000, maxMemoryUsage := 100 * 1024 * 1024, maxResultRows := 10000
    allowedTables := ["blocks", "transactions", "events", "contracts", "storage_diffs"]
    rateLimitPerMinute := 60 }

structure ResourceUsage where
  executionTime : Int
  memoryUsed : Int
  rowsProcessed : Int
  cacheHits : Nat
  cacheMisses : Nat
deriving DecidableEq, Repr

def zeroUsage : ResourceUsage :=
  { executionTime := 0, memoryUsed := 0, rowsProcessed := 0, cacheHits := 0, cacheMisses := 0 }

/-- `executionHistory`: per-user list of admitted call timestamps. -/
def History := String → List Int

/-- `checkRateLimit` at wall-clock `now`.  On success the pruned, extended
history is stored; on failure the map is left untouched. -/
def checkRateLimit (cfg : SandboxConfig) (h : History) (userId : String) (now : Int) :
    Bool × History :=
  let userHistory := h userId
  let recentExecutions := userHistory.filter (fun time => now - time < 60000)
  if recentExecutions.length ≥ cfg.rateLimitPerMinute then (false, h)
  else (true, fun u => if u = userId then recentExecutions ++ [now] else h u)

structure QueryResult (α : Type) where
  success : Bool
  data : Option (List α)
  error : Option String
  executionTime : Int
  rowCount : Nat
  fromCache : Bool
  optimization : Option QueryOptimization
  warnings : List String
deriving DecidableEq, Repr

structure SandboxState (α : Type) where
  history : History
  cache : CacheMap α
  usage : ResourceUsage

def rateLimitErrorMsg : String :=
  "Rate limit exceeded. Please wait before executing another query."

/-- The row cap applied inside `executeWithLimits` once the storage call
resolves (`data.slice(0, maxResultRows)`). -/
def capRows (cfg : SandboxConfig) (rows : List α) : List α :=
  if rows.length > cfg.maxResultRows then rows.take cfg.maxResultRows else rows

/-- `QueryExecutionSandbox.executeQuery`, as a state transformer.

`tStart` is `Date.now()` at entry and `tEnd` is `Date.now()` when the storage
call settles, so `tEnd - tStart` is the measured `executionTime`.  The
underlying storage call (`executeWithLimits`'s promise race) is abstracted by
`exec`: `Except.ok rows` is a resolve, `Except.error msg` is any rejection —
including the timeout rejection `Query execution timeout (...)`; either way the
rejection is caught by the outer `try` and lands in `result.error`. -/
def executeQueryM (cfg : SandboxConfig) (s : SandboxState α) (query : String)
    (userId : Option String) (tStart tEnd : Int) (exec : Except String (List α)) :
    QueryResult α × SandboxState α :=
  let r0 : QueryResult α :=
    { success := false, data := none, error := none, executionTime := 0, rowCount := 0
      fromCache := false, optimization := none, warnings := [] }
  -- rate limiting check
  let rl : Option (Bool × History) := userId.map (fun uid => checkRateLimit cfg s.history uid tStart)
  if rl.map (·.1) = some false then
    ({ r0 with error := some rateLimitErrorMsg }, s)
  else
    let history' := match rl with | some rlr => rlr.2 | none => s.history
    -- check cache first
    let cres := cacheGet s.cache query tStart
    let cache' := cres.2
    match cres.1 with
    | some entry =>
      ({ r0 with success := true, data := some entry.result, executionTime := entry.executionTime
                 rowCount := entry.result.length, fromCache := true },
       { history := history', cache := cache'
         usage := { s.usage with cacheHits := s.usage.cacheHits + 1 } })
    | none =>
      let usage := { s.usage with cacheMisses := s.usage.cacheMisses + 1 }
      -- parse and validate query
      let parsedQuery := parse query
      if !parsedQuery.isValid then
        ({ r0 with error := some ("Query validation failed: " ++ String.intercalate ", " parsedQuery.errors) },
         { history := history', cache := cache', usage := usage })
      -- check table permissions (first offending table reports)
      else
        match parsedQuery.tables.find? (fun t => !(cfg.allowedTables.contains (jsToLower t))) with
        | some table =>
          ({ r0 with error := some ("Access denied to table: " ++ table) },
           { history := history', cache := cache', usage := usage })
        | none =>
          let optimization := optimize parsedQuery
          let r1 := { r0 with optimization := some optimization, warnings := optimization.warnings }
          match exec with
          | .error msg =>
            ({ r1 with error := some msg, executionTime := tEnd - tStart },
             { history := history', cache := cache', usage := usage })
          | .ok rows =>
            let data := capRows cfg rows
            let executionTime := tEnd - tStart
            let r2 := { r1 with success := true, data := some data, rowCount := data.length
                                executionTime := executionTime }
            -- cache successful results
            let cache'' := cacheSet cache' query data executionTime tEnd
            let usage' := { usage with executionTime := usage.executionTime + executionTime
                                       rowsProcessed := usage.rowsProcessed + (data.length : Int) }
            (r2, { history := history', cache := cache'', usage := usage' })

/-! ## StarkNetIndexer.backfillBlocks (src/unnamed/part_002)

`indexBlock` performs RPC fetches and storage upserts; its outcome for each
block is abstracted by `fails : Nat → Bool` (`true` = the awaited
`indexBlock(blockNumber)` throws).  The backfill result is the ordered pair of
successfully indexed block numbers and logged failed block numbers. -/

/-- The inner per-batch loop: `for (blockNumber = start; blockNumber <= end; blockNumber++)`
with a `try`/`catch` that logs and continues. -/
def indexBatch (fails : Nat → Bool) (start endB : Nat) : List Nat × List Nat :=
  if _h : start > endB then ([], [])
  else
    let rest := indexBatch fails (start + 1) endB
    if fails start then (rest.1, start :: rest.2) else (start :: rest.1, rest.2)
termination_by endB + 1 - start
decreasing_by omega

/-- The outer batch loop: `for (start = fromBlock; start <= toBlock; start += batchSize)`. -/
def backfillOuter (fails : Nat → Bool) (batchSize : Nat) (hb : 0 < batchSize) (toBlock : Nat) :
    Nat → List Nat × List Nat
  | start =>
    if _h : start > toBlock then ([], [])
    else
      let endB := min (start + batchSize - 1) toBlock
      let batch := indexBatch fails start endB
      let rest := backfillOuter fails batchSize hb toBlock (start + batchSize)
      (batch.1 ++ rest.1, batch.2 ++ rest.2)
termination_by start => toBlock + 1 - start
decreasing_by omega

theorem batchSizeOrTen_pos (cfgBatchSize : Nat) :
    0 < (if cfgBatchSize = 0 then 10 else cfgBatchSize) := by
  split <;> omega

/-- `backfillBlocks(fromBlock, toBlock)` with `batchSize = config.batchSize || 10`. -/
def backfillBlocks (cfgBatchSize : Nat) (fails : Nat → Bool) (fromBlock toBlock : Nat) :
    List Nat × List Nat :=
  backfillOuter fails (if cfgBatchSize = 0 then 10 else cfgBatchSize)
    (batchSizeOrTen_pos cfgBatchSize) toBlock fromBlock

/-! ## Validator stage lemmas -/

theorem dangerFold_isValid (query : String) (pats : List (List RTok)) (r : ValidationResult) :
    (pats.foldl (dangerStep query) r).isValid =
      (r.isValid && !(pats.any (fun p => testPat p false query))) := by
  induction pats generalizing r with
  | nil => simp
  | cons p ps ih =>
    simp only [List.foldl_cons, List.any_cons, dangerStep]
    by_cases h : testPat p false query <;> simp [h, ih]

theorem dangerFold_warnings (query : String) (pats : List (List RTok)) (r : ValidationResult) :
    (pats.foldl (dangerStep query) r).warnings = r.warnings := by
  induction pats generalizing r with
  | nil => rfl
  | cons p ps ih =>
    simp only [List.foldl_cons, dangerStep]
    by_cases h : testPat p false query <;> simp [h, ih]

theorem dangerFold_errors_suffix (query : String) (pats : List (List RTok)) (r : ValidationResult) :
    ∃ es, (pats.foldl (dangerStep query) r).errors = r.errors ++ es := by
  induction pats generalizing r with
  | nil => exact ⟨[], by simp⟩
  | cons p ps ih =>
    simp only [List.foldl_cons, dangerStep]
    by_cases h : testPat p false query
    · obtain ⟨es, hes⟩ := ih { r with errors := r.errors ++ [dangerousOperationError], isValid := false }
      exact ⟨[dangerousOperationError] ++ es, by simp [h, hes]⟩
    · obtain ⟨es, hes⟩ := ih r
      exact ⟨es, by simp [h, hes]⟩

theorem dangerFold_errors_mem (query : String) (pats : List (List RTok)) (r : ValidationResult)
    (h : pats.any (fun p => testPat p false query) = true) :
    dangerousOperationError ∈ (pats.foldl (dangerStep query) r).errors := by
  induction pats generalizing r with
  | nil => simp at h
  | cons p ps ih =>
    simp only [List.foldl_cons, dangerStep]
    by_cases hp : testPat p false query
    · simp only [hp, if_true]
      obtain ⟨es, hes⟩ :=
        dangerFold_errors_suffix query ps { r with errors := r.errors ++ [dangerousOperationError], isValid := false }
      rw [hes]
      simp
    · simp only [hp, if_false]
      simp only [List.any_cons, hp, Bool.false_or] at h
      exact ih r h

theorem injectionStage_isValid (q : String) (r : ValidationResult) :
    (injectionStage q r).isValid = r.isValid := by
  unfold injectionStage; split <;> rfl

theorem injectionStage_errors (q : String) (r : ValidationResult) :
    (injectionStage q r).errors = r.errors := by
  unfold injectionStage; split <;> rfl

theorem lengthStage_isValid (q : String) (r : ValidationResult) :
    (lengthStage q r).isValid = r.isValid := by
  unfold lengthStage; split <;> rfl

theorem lengthStage_errors (q : String) (r : ValidationResult) :
    (lengthStage q r).errors = r.errors := by
  unfold lengthStage; split <;> rfl

theorem lengthStage_warnings_mem (q : String) (r : ValidationResult) (x : String)
    (h : x ∈ r.warnings) : x ∈ (lengthStage q r).warnings := by
  unfold lengthStage; split <;> simp [h]

theorem missingLimitStage_isValid (q : String) (r : ValidationResult) :
    (missingLimitStage q r).isValid = r.isValid := by
  unfold missingLimitStage
  split
  · split <;> rfl
  · rfl

theorem missingLimitStage_errors (q : String) (r : ValidationResult) :
    (missingLimitStage q r).errors = r.errors := by
  unfold missingLimitStage
  split
  · split <;> rfl
  · rfl

theorem missingLimitStage_warnings_mem (q : String) (r : ValidationResult) (x : String)
    (h : x ∈ r.warnings) : x ∈ (missingLimitStage q r).warnings := by
  unfold missingLimitStage
  split
  · split <;> simp [h]
  · exact h

theorem selectStarStage_isValid (q : String) (r : ValidationResult) :
    (selectStarStage q r).isValid = r.isValid := by
  unfold selectStarStage
  split
  · split <;> rfl
  · rfl

theorem selectStarStage_errors (q : String) (r : ValidationResult) :
    (selectStarStage q r).errors = r.errors := by
  unfold selectStarStage
  split
  · split <;> rfl
  · rfl

theorem selectStarStage_warnings_mem (q : String) (r : ValidationResult) (x : String)
    (h : x ∈ r.warnings) : x ∈ (selectStarStage q r).warnings := by
  unfold selectStarStage
  split
  · split <;> simp [h]
  · exact h

theorem emptyCheckStage_isValid (q : String) :
    (emptyCheckStage q { isValid := true, errors := [], warnings := [] }).isValid =
      !((jsTrim q).length == 0) := by
  unfold emptyCheckStage
  by_cases h : (jsTrim q).length = 0 <;> simp [h]

/-- `validateQuery`'s validity flag is decided solely by the empty-text check
and the dangerous-operation patterns; the injection heuristic and all later
checks never touch it. -/
theorem validateQuery_isValid (q : String) :
    (validateQuery q).isValid =
      (!((jsTrim q).length == 0) && !(dangerousPatterns.any (fun p => testPat p false q))) := by
  unfold validateQuery dangerStage
  rw [selectStarStage_isValid, missingLimitStage_isValid, lengthStage_isValid,
    injectionStage_isValid, dangerFold_isValid, emptyCheckStage_isValid]

/-- Claim C3 (amended): a query matching one of the eleven dangerous-operation
regexes (`DROP\s+TABLE`, `DELETE\s+FROM`, `UPDATE\s+\w+\s+SET`, `INSERT\s+INTO`,
`CREATE\s+TABLE`, `ALTER\s+TABLE`, `TRUNCATE`, `EXEC\s*\(`, `EXECUTE\s*\(`,
`xp_cmdshell`, `sp_executesql`, all case-insensitive, anywhere in the text,
including inside string literals) is rejected: `validateQuery` returns
`isValid = false` with a PERMISSION_ERROR/DANGEROUS_OPERATION entry.  Bare
keywords (e.g. `DROP` without `TABLE`) and the keywords REPLACE, MERGE, GRANT,
REVOKE are not flagged. -/
theorem claim_C3_theorem (q : String)
    (h : dangerousPatterns.any (fun p => testPat p false q) = true) :
    (validateQuery q).isValid = false ∧
      dangerousOperationError ∈ (validateQuery q).errors := by
  constructor
  · rw [validateQuery_isValid, h]
    simp
  · unfold validateQuery dangerStage
    rw [selectStarStage_errors, missingLimitStage_errors, lengthStage_errors, injectionStage_errors]
    exact dangerFold_errors_mem q dangerousPatterns _ h

/-- Claim C3 witness: `DROP TABLE users` matches a dangerous pattern and is
rejected with the PERMISSION_ERROR entry. -/
theorem claim_C3_witness :
    dangerousPatterns.any (fun p => testPat p false "DROP TABLE users") = true ∧
      ((validateQuery "DROP TABLE users").isValid = false ∧
        dangerousOperationError ∈ (validateQuery "DROP TABLE users").errors) :=
  ⟨by decide, claim_C3_theorem "DROP TABLE users" (by decide)⟩

/-- Claim C3 counterexample: `GRANT ALL ON blocks` contains the blocked keyword
GRANT, yet `validateQuery` returns `isValid = true` with no errors — the
validator only matches the eleven compound patterns, and GRANT (like REVOKE,
MERGE, REPLACE, or a bare DROP/DELETE/...) is not among them. -/
theorem claim_C3_cex :
    (validateQuery "GRANT ALL ON blocks").isValid = true ∧
      (validateQuery "GRANT ALL ON blocks").errors = [] := by decide

/-- Claim C10 (amended): whenever the injection regex
`(union|select).*(from|where)` matches — i.e. SELECT or UNION followed by FROM
or WHERE **with no line terminator in between** — `validateQuery` attaches the
injection warning; and `isValid` is never affected by the injection heuristic
(it equals the conjunction of the empty-text and dangerous-pattern checks
alone).  Multi-line SELECT statements whose FROM sits on a later line do not
trigger the warning, so the heuristic does not cover every well-formed SELECT
statement. -/
theorem claim_C10_theorem :
    (∀ q : String, injUnionSelect q = true → injectionWarning ∈ (validateQuery q).warnings) ∧
    (∀ q : String, (validateQuery q).isValid =
      (!((jsTrim q).length == 0) && !(dangerousPatterns.any (fun p => testPat p false q)))) := by
  constructor
  · intro q h
    have hdet : injectionDetected q = true := by
      unfold injectionDetected
      rw [h]
      simp
    unfold validateQuery
    apply selectStarStage_warnings_mem
    apply missingLimitStage_warnings_mem
    apply lengthStage_warnings_mem
    unfold injectionStage
    simp [hdet]
  · exact validateQuery_isValid

/-- Claim C10 witness: `select * from blocks` matches the injection regex and
receives the warning. -/
theorem claim_C10_witness :
    injUnionSelect "select * from blocks" = true ∧
      injectionWarning ∈ (validateQuery "select * from blocks").warnings :=
  ⟨by decide, claim_C10_theorem.1 "select * from blocks" (by decide)⟩

/-- Claim C10 counterexample: `select col\nfrom blocks` contains SELECT
followed (on the next line) by FROM — a well-formed SELECT statement — yet
`validateQuery` returns **no** warnings at all: the JS `.` in
`(union|select).*(from|where)` does not cross the newline. -/
theorem claim_C10_cex :
    (validateQuery "select col\nfrom blocks").warnings = [] := by decide

/-! ## Parser claims -/

/-- Claim C1: the spec's example
`SELECT block_number, timestamp FROM blocks ORDER BY block_number DESC LIMIT 10`.
The code parses it as a valid SELECT on table `BLOCKS` ordered by
`BLOCK_NUMBER DESC`, but `limit` ends up as the injected default `1000`, not
`10`: `parseSelectQuery` breaks out of its clause loop right after
`parseOrderBy`, so the trailing `LIMIT 10` tokens are never consumed and
`applyResourceLimits` installs the default (the names are also upper-cased by
normalization). -/
theorem claim_C1_theorem :
    parse "SELECT block_number, timestamp FROM blocks ORDER BY block_number DESC LIMIT 10" =
      { type := .SELECT, tables := ["BLOCKS"], columns := ["BLOCK_NUMBER,", "TIMESTAMP"]
        conditions := [], joins := [], orderBy := [⟨"BLOCK_NUMBER", "DESC"⟩], groupBy := []
        having := [], limit := some 1000, offset := none, isValid := true, errors := []
        estimatedComplexity := 15 } := by decide

/-- Claim C2 (amended): only the six recognized non-SELECT statement kinds
(INSERT, UPDATE, DELETE, CREATE, DROP, ALTER) as first token are rejected with
the dedicated only-SELECT error; any unrecognized first token is silently
coerced to SELECT by `getQueryType`'s default case and parsed as a SELECT
plan. -/
theorem claim_C2_theorem :
    (∀ q : String, tokenize (normalizeQuery q) ≠ [] →
        getQueryType ((tokenize (normalizeQuery q)).getD 0 "") ≠ QueryType.SELECT →
        (parse q).isValid = false ∧
          (parse q).errors = ["Only SELECT queries are allowed in the sandbox"]) ∧
    (∀ t : String, getQueryType t ≠ QueryType.SELECT ↔
        jsToUpper t ∈ ["INSERT", "UPDATE", "DELETE", "CREATE", "DROP", "ALTER"]) := by
  constructor
  · intro q h1 h2
    have hlen : ¬(tokenize (normalizeQuery q)).length = 0 := by
      simpa [List.length_eq_zero] using h1
    simp only [parse]
    rw [if_neg hlen, if_pos h2]
    simp [emptyParsed]
  · intro t
    simp only [getQueryType]
    split_ifs with h1 h2 h3 h4 h5 h6 h7 <;> simp_all

/-- Claim C2 witness: a `DROP` statement is rejected with the dedicated
only-SELECT error. -/
theorem claim_C2_witness :
    (tokenize (normalizeQuery "DROP TABLE blocks") ≠ [] ∧
      getQueryType ((tokenize (normalizeQuery "DROP TABLE blocks")).getD 0 "") ≠ QueryType.SELECT) ∧
    ((parse "DROP TABLE blocks").isValid = false ∧
      (parse "DROP TABLE blocks").errors = ["Only SELECT queries are allowed in the sandbox"]) :=
  ⟨⟨by decide, by decide⟩, claim_C2_theorem.1 "DROP TABLE blocks" (by decide) (by decide)⟩

/-- Claim C2 counterexample: `FOO FROM blocks` starts with an unrecognized
keyword, but `parse` silently treats it as a SELECT plan and returns
`isValid = true` with no error, contradicting the claim that every non-SELECT
first token yields the dedicated only-SELECT rejection. -/
theorem claim_C2_cex :
    (parse "FOO FROM blocks").isValid = true ∧
      (parse "FOO FROM blocks").errors = [] ∧
      (parse "FOO FROM blocks").type = QueryType.SELECT := by decide

/-- The spec's complexity example: 3 tables joined with 4 WHERE conditions and
no LIMIT. -/
def exampleJoinQuery : String :=
  "SELECT * FROM blocks INNER JOIN transactions ON blocks.block_number = transactions.block_number INNER JOIN events ON transactions.transaction_hash = events.transaction_hash WHERE a > 1 AND b > 2 AND c > 3 AND d > 4"

set_option maxRecDepth 4000 in
/-- Claim C8 (amended): the 3-table-join, 4-condition, no-LIMIT example scores
`estimatedComplexity = 36`, which does **not** exceed the ceiling of 50, so no
complexity rejection fires.  The query is still rejected before execution, but
with unknown-table errors: the parser records only the first JOIN and misparses
the second join's tokens (`ON`, `=`, the qualified columns) into the table
list.  Complexity-based rejection happens exactly for plans whose score
exceeds `MAX_COMPLEXITY = 50`. -/
theorem claim_C8_theorem :
    ((parse exampleJoinQuery).estimatedComplexity = 36 ∧
      (parse exampleJoinQuery).estimatedComplexity ≤ MAX_COMPLEXITY ∧
      (parse exampleJoinQuery).isValid = false ∧
      "Unknown table: ON. Available tables: blocks, transactions, events, contracts, storage_diffs" ∈
        (parse exampleJoinQuery).errors) ∧
    (∀ p : ParsedQuery, p.estimatedComplexity > MAX_COMPLEXITY →
      (applyResourceLimits p).isValid = false) := by
  constructor
  · decide
  · intro p h
    unfold applyResourceLimits
    rw [if_pos h]
    dsimp only
    split_ifs <;> rfl

/-- Claim C8 witness: a plan whose score exceeds the ceiling is rejected by
`applyResourceLimits`. -/
theorem claim_C8_witness :
    ({ emptyParsed with estimatedComplexity := 51 } : ParsedQuery).estimatedComplexity > MAX_COMPLEXITY ∧
      (applyResourceLimits { emptyParsed with estimatedComplexity := 51 }).isValid = false :=
  ⟨by decide, claim_C8_theorem.2 _ (by decide)⟩

set_option maxRecDepth 4000 in
/-- Claim C8 counterexample: the example query's score is 36 ≤ 50, and its
error list consists of unknown-table errors only — the claimed
complexity-ceiling rejection does not occur. -/
theorem claim_C8_cex :
    (parse exampleJoinQuery).estimatedComplexity = 36 ∧
      ¬(parse exampleJoinQuery).estimatedComplexity > MAX_COMPLEXITY ∧
      (parse exampleJoinQuery).errors =
        [ "Unknown table: ON. Available tables: blocks, transactions, events, contracts, storage_diffs",
          "Unknown table: TRANSACTIONS.TRANSACTION_HASH. Available tables: blocks, transactions, events, contracts, storage_diffs",
          "Unknown table: =. Available tables: blocks, transactions, events, contracts, storage_diffs",
          "Unknown table: EVENTS.TRANSACTION_HASH. Available tables: blocks, transactions, events, contracts, storage_diffs" ] := by
  decide

/-! ## Cache claims -/

theorem mapGet_mapDelete_self (m : CacheMap α) (k : String) :
    mapGet (mapDelete m k) k = none := by
  unfold mapGet mapDelete
  rw [Option.map_eq_none', List.find?_eq_none]
  intro a ha
  have hpa := List.of_mem_filter ha
  simp only [Bool.not_eq_true'] at hpa
  simp [hpa]

/-- Claim C6: `QueryCache.get` never returns an entry older than the TTL
(5 minutes): if the stored entry for the query's key has
`now - timestamp > maxCacheAge`, the call returns a miss and the entry is
evicted from the map, independently of the background sweep. -/
theorem claim_C6_theorem {α : Type} (m : CacheMap α) (q : String) (now : Int)
    (e : CacheEntry α)
    (hfound : mapGet m (cacheKey q) = some e)
    (hexpired : now - e.timestamp > maxCacheAge) :
    (cacheGet m q now).1 = none ∧ mapGet (cacheGet m q now).2 (cacheKey q) = none := by
  unfold cacheGet
  simp only [hfound]
  rw [if_pos hexpired]
  exact ⟨rfl, mapGet_mapDelete_self m (cacheKey q)⟩

def c6WitnessEntry : CacheEntry Nat :=
  { query := "q1", queryHash := cacheKey "q1", result := [1], timestamp := 0
    executionTime := 5, hitCount := 0, lastAccessed := 0 }

def c6WitnessMap : CacheMap Nat := [(cacheKey "q1", c6WitnessEntry)]

/-- Claim C6 witness: an entry created at time 0 and looked up at
`now = 300001` (TTL is 300000 ms) is treated as a miss and evicted. -/
theorem claim_C6_witness :
    (mapGet c6WitnessMap (cacheKey "q1") = some c6WitnessEntry ∧
      (300001 : Int) - c6WitnessEntry.timestamp > maxCacheAge) ∧
    ((cacheGet c6WitnessMap "q1" 300001).1 = none ∧
      mapGet (cacheGet c6WitnessMap "q1" 300001).2 (cacheKey "q1") = none) :=
  ⟨⟨by decide, by decide⟩, claim_C6_theorem c6WitnessMap "q1" 300001 c6WitnessEntry (by decide) (by decide)⟩

/-! ## Claim C4: LIMIT injection and client-side row cap -/

theorem getD_mem_of_lt {l : List String} {i : Nat} (h : i < l.length) :
    l.getD i "" ∈ l := by
  rw [List.getD_eq_getElem l "" h]
  exact List.getElem_mem h

/-- If no token upper-cases to LIMIT, the select-clause loop leaves `limit`
and `offset` untouched. -/
theorem selectMainLoop_limit_offset (tokens : List String)
    (hno : ∀ t ∈ tokens, jsToUpper t ≠ "LIMIT") :
    ∀ fuel i r, (selectMainLoop tokens fuel i r).limit = r.limit ∧
      (selectMainLoop tokens fuel i r).offset = r.offset := by
  intro fuel
  induction fuel with
  | zero => intro i r; exact ⟨rfl, rfl⟩
  | succ fuel ih =>
    intro i r
    unfold selectMainLoop
    dsimp only
    split_ifs with hi h1 h2 h3 h4 h5 h6
    · exact ⟨rfl, rfl⟩
    · exact ih _ _
    · exact ⟨rfl, rfl⟩
    · exact ih _ _
    · exact absurd h5 (hno _ (getD_mem_of_lt hi))
    · exact ih _ _
    · exact ih _ _
    · exact ⟨rfl, rfl⟩

theorem parseSelectQuery_limit_offset (tokens : List String) (r : ParsedQuery)
    (hno : ∀ t ∈ tokens, jsToUpper t ≠ "LIMIT") :
    (parseSelectQuery tokens r).limit = r.limit ∧
      (parseSelectQuery tokens r).offset = r.offset := by
  unfold parseSelectQuery
  dsimp only
  split_ifs with h
  · exact ⟨rfl, rfl⟩
  · exact selectMainLoop_limit_offset tokens hno _ _ _

theorem validateTables_limit_offset (r : ParsedQuery) :
    (validateTables r).limit = r.limit ∧ (validateTables r).offset = r.offset := by
  unfold validateTables
  generalize r.tables = ts
  induction ts generalizing r with
  | nil => exact ⟨rfl, rfl⟩
  | cons t ts ih =>
    simp only [List.foldl_cons]
    split
    · exact ih _
    · exact ih _

theorem applyResourceLimits_of_limit_none (r : ParsedQuery)
    (hl : r.limit = none) (ho : r.offset = none) :
    (applyResourceLimits r).limit = some 1000 ∧ (applyResourceLimits r).offset = none := by
  unfold applyResourceLimits
  dsimp only
  split_ifs with h1 h2 h3 h4 <;>
    simp_all [limitFalsy, DEFAULT_LIMIT]

/-- With a valid parse and no LIMIT token, the plan's `limit` is the injected
default 1000 (and there is no offset). -/
theorem parse_limit_default (q : String)
    (hvalid : (parse q).isValid = true)
    (hno : ∀ t ∈ tokenize (normalizeQuery q), jsToUpper t ≠ "LIMIT") :
    (parse q).limit = some 1000 ∧ (parse q).offset = none := by
  simp only [parse] at hvalid ⊢
  by_cases h0 : (tokenize (normalizeQuery q)).length = 0
  · rw [if_pos h0] at hvalid
    simp at hvalid
  · rw [if_neg h0] at hvalid ⊢
    by_cases h1 : getQueryType ((tokenize (normalizeQuery q)).getD 0 "") ≠ QueryType.SELECT
    · rw [if_pos h1] at hvalid
      simp at hvalid
    · rw [if_neg h1] at hvalid ⊢
      have hsel := parseSelectQuery_limit_offset (tokenize (normalizeQuery q))
        { emptyParsed with type := getQueryType ((tokenize (normalizeQuery q)).getD 0 "") } hno
      have hval := validateTables_limit_offset (parseSelectQuery (tokenize (normalizeQuery q))
        { emptyParsed with type := getQueryType ((tokenize (normalizeQuery q)).getD 0 "") })
      have e3 : (validateTables (parseSelectQuery (tokenize (normalizeQuery q))
          { emptyParsed with type := getQueryType ((tokenize (normalizeQuery q)).getD 0 "") })).limit = none := by
        rw [hval.1, hsel.1]
        rfl
      have e4 : (validateTables (parseSelectQuery (tokenize (normalizeQuery q))
          { emptyParsed with type := getQueryType ((tokenize (normalizeQuery q)).getD 0 "") })).offset = none := by
        rw [hval.2, hsel.2]
        rfl
      exact applyResourceLimits_of_limit_none _ e3 e4

theorem suffix_limit_1000 (B : String) :
    (" LIMIT 1000").data <:+ (B ++ " LIMIT " ++ toString (1000 : Int)).data := by
  rw [String.append_assoc,
    show (" LIMIT " ++ toString (1000 : Int) : String) = " LIMIT 1000" from rfl,
    String.data_append]
  exact List.suffix_append _ _

/-- `buildSQLFromParsed` ends with the injected LIMIT clause. -/
theorem buildSQL_limit_suffix (p : ParsedQuery)
    (hl : p.limit = some 1000) (ho : p.offset = none) :
    (" LIMIT 1000").data <:+ (buildSQLFromParsed p).data := by
  unfold buildSQLFromParsed
  rw [hl, ho]
  dsimp only
  rw [if_pos (show (1000 : Int) ≠ 0 by decide)]
  exact suffix_limit_1000 _

theorem capRows_length_le (cfg : SandboxConfig) (rows : List α) :
    (capRows cfg rows).length ≤ cfg.maxResultRows := by
  unfold capRows
  split
  · simp [List.length_take]
  · omega

/-- Claim C4: for every text that parses valid and contains no LIMIT token,
the plan carries the injected `LIMIT 1000`; the SQL text sent to storage by
`buildSQLFromParsed` contains ` LIMIT 1000`, whose value 1000 is at most the
sandbox row cap `maxResultRows = 10000`; and the sandbox additionally truncates
any returned row list to at most `maxResultRows` rows client-side. -/
theorem claim_C4_theorem (q : String)
    (hvalid : (parse q).isValid = true)
    (hno : ∀ t ∈ tokenize (normalizeQuery q), jsToUpper t ≠ "LIMIT") :
    (parse q).limit = some 1000 ∧
    (" LIMIT 1000").data <:+: (buildSQLFromParsed (parse q)).data ∧
    (1000 : Nat) ≤ defaultSandboxConfig.maxResultRows ∧
    ∀ (α : Type) (rows : List α),
      (capRows defaultSandboxConfig rows).length ≤ defaultSandboxConfig.maxResultRows := by
  obtain ⟨hl, ho⟩ := parse_limit_default q hvalid hno
  exact ⟨hl, (buildSQL_limit_suffix _ hl ho).isInfix, by decide,
    fun α rows => capRows_length_le _ _⟩

/-- Claim C4 witness: `SELECT * FROM blocks` (valid, no LIMIT clause). -/
theorem claim_C4_witness :
    ((parse "SELECT * FROM blocks").isValid = true ∧
      ∀ t ∈ tokenize (normalizeQuery "SELECT * FROM blocks"), jsToUpper t ≠ "LIMIT") ∧
    ((parse "SELECT * FROM blocks").limit = some 1000 ∧
      (" LIMIT 1000").data <:+: (buildSQLFromParsed (parse "SELECT * FROM blocks")).data ∧
      (1000 : Nat) ≤ defaultSandboxConfig.maxResultRows ∧
      ∀ (α : Type) (rows : List α),
        (capRows defaultSandboxConfig rows).length ≤ defaultSandboxConfig.maxResultRows) :=
  ⟨⟨by decide, by decide⟩, claim_C4_theorem "SELECT * FROM blocks" (by decide) (by decide)⟩

/-! ## Claim C9: backfill partial failure -/

theorem indexBatch_spec (fails : Nat → Bool) :
    ∀ n start endB, endB + 1 - start = n →
      indexBatch fails start endB =
        ((List.range' start (endB + 1 - start)).filter (fun b => !fails b),
         (List.range' start (endB + 1 - start)).filter (fun b => fails b)) := by
  intro n
  induction n with
  | zero =>
    intro s e h
    unfold indexBatch
    rw [dif_pos (by omega)]
    rw [h]
    simp
  | succ n ih =>
    intro s e h
    unfold indexBatch
    rw [dif_neg (by omega)]
    rw [ih (s + 1) e (by omega)]
    have hrange : List.range' s (e + 1 - s) = s :: List.range' (s + 1) (e + 1 - (s + 1)) := by
      have h2 : e + 1 - s = (e + 1 - (s + 1)) + 1 := by omega
      rw [h2, List.range'_succ]
    rw [hrange]
    by_cases hf : fails s <;> simp [hf, List.filter_cons]

theorem backfillOuter_spec (fails : Nat → Bool) (bs : Nat) (hb : 0 < bs) (toB : Nat) :
    ∀ n start, toB + 1 - start ≤ n →
      backfillOuter fails bs hb toB start =
        ((List.range' start (toB + 1 - start)).filter (fun b => !fails b),
         (List.range' start (toB + 1 - start)).filter (fun b => fails b)) := by
  intro n
  induction n with
  | zero =>
    intro s h
    unfold backfillOuter
    rw [dif_pos (by omega)]
    rw [show toB + 1 - s = 0 by omega]
    simp
  | succ n ih =>
    intro s h
    by_cases hs : s > toB
    · unfold backfillOuter
      rw [dif_pos hs]
      rw [show toB + 1 - s = 0 by omega]
      simp
    · unfold backfillOuter
      rw [dif_neg hs]
      dsimp only
      rw [indexBatch_spec fails (min (s + bs - 1) toB + 1 - s) s (min (s + bs - 1) toB) rfl]
      rw [ih (s + bs) (by omega)]
      have hsplit : List.range' s (toB + 1 - s) =
          List.range' s (min (s + bs - 1) toB + 1 - s) ++
            List.range' (s + bs) (toB + 1 - (s + bs)) := by
        by_cases hcase : s + bs ≤ toB + 1
        · have hmin : min (s + bs - 1) toB + 1 - s = bs := by omega
          rw [hmin]
          have happ := List.range'_append s bs (toB + 1 - (s + bs)) 1
          simp only [one_mul] at happ
          rw [happ]
          congr 1
          omega
        · have hmin : min (s + bs - 1) toB = toB := by omega
          rw [hmin]
          rw [show toB + 1 - (s + bs) = 0 by omega]
          simp
      rw [hsplit, List.filter_append, List.filter_append]

/-- Claim C9: if exactly one block `k` inside the requested range fails,
the backfill still indexes every other block of the range (in particular
`k - 1` and `k + 1` when they are in range), logs `k` as the only failure,
and completes instead of aborting. -/
theorem claim_C9_theorem (cfgBatchSize fromB toB k : Nat) (fails : Nat → Bool)
    (hk1 : fromB ≤ k) (hk2 : k ≤ toB) (hfk : fails k = true)
    (hothers : ∀ j, j ≠ k → fails j = false) :
    (backfillBlocks cfgBatchSize fails fromB toB).1 =
      (List.range' fromB (toB + 1 - fromB)).filter (fun b => !(b == k)) ∧
    (backfillBlocks cfgBatchSize fails fromB toB).2 = [k] ∧
    ∀ j, fromB ≤ j → j ≤ toB → j ≠ k →
      j ∈ (backfillBlocks cfgBatchSize fails fromB toB).1 := by
  have hspec := backfillOuter_spec fails (if cfgBatchSize = 0 then 10 else cfgBatchSize)
    (batchSizeOrTen_pos cfgBatchSize) toB (toB + 1 - fromB) fromB (le_refl _)
  have hpoint : ∀ b : Nat, fails b = (b == k) := by
    intro b
    by_cases hbk : b = k
    · subst hbk; simp [hfk]
    · simp [hothers b hbk, Ne.symm hbk, hbk]
  have h1 : (backfillBlocks cfgBatchSize fails fromB toB).1 =
      (List.range' fromB (toB + 1 - fromB)).filter (fun b => !(b == k)) := by
    unfold backfillBlocks
    rw [hspec]
    exact List.filter_congr (fun x _ => by rw [hpoint x])
  refine ⟨h1, ?_, ?_⟩
  · unfold backfillBlocks
    rw [hspec]
    have : (List.range' fromB (toB + 1 - fromB)).filter (fun b => fails b) =
        (List.range' fromB (toB + 1 - fromB)).filter (fun b => decide (b = k)) := by
      refine List.filter_congr (fun x _ => ?_)
      rw [hpoint x]
      by_cases hxk : x = k
      · subst hxk
        simp
      · simp [hxk]
    rw [this, List.filter_eq]
    have hmem : k ∈ List.range' fromB (toB + 1 - fromB) := by
      rw [List.mem_range'_1]
      omega
    rw [List.count_eq_one_of_mem (List.nodup_range' _ _) hmem]
    rfl
  · intro j hj1 hj2 hjk
    rw [h1, List.mem_filter]
    refine ⟨?_, by simp [hjk]⟩
    rw [List.mem_range'_1]
    omega

/-- Claim C9 witness: over the range 3..12 with block 5 failing, every other
block is indexed and 5 is the only logged failure. -/
theorem claim_C9_witness :
    ((3 : Nat) ≤ 5 ∧ (5 : Nat) ≤ 12 ∧ ((5 : Nat) == 5) = true ∧
      (∀ j : Nat, j ≠ 5 → (j == 5) = false)) ∧
    ((backfillBlocks 0 (fun b => b == 5) 3 12).1 =
        (List.range' 3 (12 + 1 - 3)).filter (fun b => !(b == 5)) ∧
      (backfillBlocks 0 (fun b => b == 5) 3 12).2 = [5] ∧
      ∀ j, 3 ≤ j → j ≤ 12 → j ≠ 5 →
        j ∈ (backfillBlocks 0 (fun b => b == 5) 3 12).1) :=
  ⟨⟨by omega, by omega, by decide, fun j hj => by simpa using hj⟩,
    claim_C9_theorem 0 3 12 5 (fun b => b == 5) (by omega) (by omega) (by decide)
      (fun j hj => by simpa using hj)⟩

/-! ## Claim C7: cache population policy -/

theorem cacheGet_miss_lookup_none (m : CacheMap α) (q : String) (now : Int)
    (h : (cacheGet m q now).1 = none) :
    mapGet (cacheGet m q now).2 (cacheKey q) = none := by
  unfold cacheGet at h ⊢
  dsimp only at h ⊢
  cases hfind : mapGet m (cacheKey q) with
  | none =>
    dsimp only
    exact hfind
  | some e =>
    dsimp only at h ⊢
    by_cases hexp : now - e.timestamp > maxCacheAge
    · rw [if_pos hexp]
      exact mapGet_mapDelete_self m (cacheKey q)
    · rw [hfind] at h
      dsimp only at h
      rw [if_neg hexp] at h
      simp at h

/-- The exact result of a rate-limited `executeQuery` call: the error is set,
everything else (including the whole sandbox state: history, cache, usage) is
untouched, and the outcome does not depend on the storage call at all. -/
theorem executeQueryM_rateLimited {α : Type} (cfg : SandboxConfig) (s : SandboxState α)
    (q : String) (u : String) (tS tE : Int) (exec : Except String (List α))
    (h : (checkRateLimit cfg s.history u tS).1 = false) :
    executeQueryM cfg s q (some u) tS tE exec =
      ({ success := false, data := none, error := some rateLimitErrorMsg, executionTime := 0
         rowCount := 0, fromCache := false, optimization := none, warnings := [] }, s) := by
  unfold executeQueryM
  dsimp only
  rw [Option.map_some', Option.map_some', h, if_pos rfl]

/-- Case analysis for every non-rate-limited path of `executeQueryM`:
either the call failed and nothing was stored under the query key,
or it succeeded and exactly the capped rows were stored. -/
theorem executeQueryM_cache_cases {α : Type} (cfg : SandboxConfig) (s : SandboxState α)
    (q : String) (uid : Option String) (tS tE : Int) (exec : Except String (List α))
    (hrl : (uid.map (fun u => checkRateLimit cfg s.history u tS)).map (·.1) ≠ some false) :
    ((executeQueryM cfg s q uid tS tE exec).1.success = false →
      (executeQueryM cfg s q uid tS tE exec).2.cache = (cacheGet s.cache q tS).2 ∧
        ((cacheGet s.cache q tS).1 = none →
          mapGet (executeQueryM cfg s q uid tS tE exec).2.cache (cacheKey q) = none)) ∧
    ((cacheGet s.cache q tS).1 = none →
      (parse q).isValid = true →
      (parse q).tables.find? (fun t => !(cfg.allowedTables.contains (jsToLower t))) = none →
      ∀ rows, exec = Except.ok rows →
        (executeQueryM cfg s q uid tS tE exec).1.success = true ∧
          (executeQueryM cfg s q uid tS tE exec).2.cache =
            cacheSet (cacheGet s.cache q tS).2 q (capRows cfg rows) (tE - tS) tE) := by
  unfold executeQueryM
  dsimp only
  rw [if_neg hrl]
  cases hc : (cacheGet s.cache q tS).1 with
  | some e =>
    dsimp only
    constructor
    · intro hsucc
      simp at hsucc
    · intro hc'
      simp at hc'
  | none =>
    dsimp only
    by_cases hv : (parse q).isValid
    · rw [if_neg (by simp [hv])]
      cases hfind : (parse q).tables.find? (fun t => !(cfg.allowedTables.contains (jsToLower t))) with
      | some t =>
        dsimp only
        constructor
        · intro _
          exact ⟨rfl, fun _ => by
            have := cacheGet_miss_lookup_none s.cache q tS hc
            exact this⟩
        · intro _ _ hfind'
          simp at hfind'
      | none =>
        dsimp only
        cases exec with
        | error msg =>
          dsimp only
          constructor
          · intro _
            exact ⟨rfl, fun _ => cacheGet_miss_lookup_none s.cache q tS hc⟩
          · intro _ _ _ rows hrows
            cases hrows
        | ok rows =>
          dsimp only
          constructor
          · intro hsucc
            simp at hsucc
          · intro _ _ _ rows' hrows'
            cases hrows'
            exact ⟨rfl, rfl⟩
    · rw [if_pos (by simp [Bool.not_eq_true] at hv; simp [hv])]
      dsimp only
      constructor
      · intro _
        exact ⟨rfl, fun _ => cacheGet_miss_lookup_none s.cache q tS hc⟩
      · intro _ hv' _ _ _
        exact absurd hv' hv

/-- Claim C7 (amended): the cache is populated exactly on successful execution
— rate limit passed, cache miss, valid parse, permitted tables, storage call
resolved — with **no** execution-time threshold (arbitrarily slow successes are
cached too, see the counterexample); and a failed call never stores anything:
after any unsuccessful call the cache either is completely untouched
(rate-limit path) or holds no entry at all under the query's key. -/
theorem claim_C7_theorem :
    (∀ (α : Type) (cfg : SandboxConfig) (s : SandboxState α) (q : String)
        (uid : Option String) (tS tE : Int) (exec : Except String (List α)),
      (executeQueryM cfg s q uid tS tE exec).1.success = false →
        (executeQueryM cfg s q uid tS tE exec).2.cache = s.cache ∨
        ((executeQueryM cfg s q uid tS tE exec).2.cache = (cacheGet s.cache q tS).2 ∧
          ((cacheGet s.cache q tS).1 = none →
            mapGet (executeQueryM cfg s q uid tS tE exec).2.cache (cacheKey q) = none))) ∧
    (∀ (α : Type) (cfg : SandboxConfig) (s : SandboxState α) (q : String)
        (uid : Option String) (tS tE : Int) (rows : List α),
      (∀ v, uid = some v → (checkRateLimit cfg s.history v tS).1 = true) →
      (cacheGet s.cache q tS).1 = none →
      (parse q).isValid = true →
      (parse q).tables.find? (fun t => !(cfg.allowedTables.contains (jsToLower t))) = none →
      (executeQueryM cfg s q uid tS tE (Except.ok rows)).1.success = true ∧
        (executeQueryM cfg s q uid tS tE (Except.ok rows)).2.cache =
          cacheSet (cacheGet s.cache q tS).2 q (capRows cfg rows) (tE - tS) tE) := by
  constructor
  · intro α cfg s q uid tS tE exec hsucc
    cases uid with
    | some u =>
      by_cases hrl : (checkRateLimit cfg s.history u tS).1 = false
      · left
        rw [executeQueryM_rateLimited cfg s q u tS tE exec hrl]
      · have hne : ((Option.some u).map (fun v => checkRateLimit cfg s.history v tS)).map (·.1) ≠
            some false := by
          rw [Option.map_some', Option.map_some']
          simpa using hrl
        right
        exact ((executeQueryM_cache_cases cfg s q (some u) tS tE exec hne).1 hsucc)
    | none =>
      have hne : ((Option.none : Option String).map (fun v => checkRateLimit cfg s.history v tS)).map (·.1) ≠
          some false := by
        rw [Option.map_none', Option.map_none']
        simp
      right
      exact ((executeQueryM_cache_cases cfg s q none tS tE exec hne).1 hsucc)
  · intro α cfg s q uid tS tE rows hrlok hc hv hfind
    have hne : (uid.map (fun v => checkRateLimit cfg s.history v tS)).map (·.1) ≠ some false := by
      cases uid with
      | some u =>
        rw [Option.map_some', Option.map_some', hrlok u rfl]
        simp
      | none =>
        rw [Option.map_none', Option.map_none']
        simp
    exact (executeQueryM_cache_cases cfg s q uid tS tE (Except.ok rows) hne).2 hc hv hfind rows rfl

def c7EmptyState : SandboxState Nat :=
  { history := fun _ => [], cache := [], usage := zeroUsage }

/-- Claim C7 witness: a successful uncached execution stores its rows. -/
theorem claim_C7_witness :
    ((∀ v, (none : Option String) = some v →
        (checkRateLimit defaultSandboxConfig c7EmptyState.history v 0).1 = true) ∧
      (cacheGet c7EmptyState.cache "SELECT * FROM blocks" 0).1 = none ∧
      (parse "SELECT * FROM blocks").isValid = true ∧
      (parse "SELECT * FROM blocks").tables.find?
        (fun t => !(defaultSandboxConfig.allowedTables.contains (jsToLower t))) = none) ∧
    ((executeQueryM defaultSandboxConfig c7EmptyState "SELECT * FROM blocks" none 0 77
          (Except.ok [42])).1.success = true ∧
      (executeQueryM defaultSandboxConfig c7EmptyState "SELECT * FROM blocks" none 0 77
          (Except.ok [42])).2.cache =
        cacheSet (cacheGet c7EmptyState.cache "SELECT * FROM blocks" 0).2 "SELECT * FROM blocks"
          (capRows defaultSandboxConfig [42]) (77 - 0) 77) :=
  ⟨⟨fun v hv => Option.noConfusion hv, by decide, by decide, by decide⟩,
    claim_C7_theorem.2 Nat defaultSandboxConfig c7EmptyState "SELECT * FROM blocks" none 0 77 [42]
      (fun v hv => Option.noConfusion hv) (by decide) (by decide) (by decide)⟩

set_option maxRecDepth 8000 in
/-- Claim C7 counterexample: there is **no** execution-time threshold that
caching respects — for every candidate bound `T` there is a successful run
whose measured execution time exceeds `T` and whose results are cached
anyway. -/
theorem claim_C7_cex :
    ¬ ∃ T : Int, ∀ tE : Int,
      (mapGet (executeQueryM defaultSandboxConfig c7EmptyState "SELECT * FROM blocks" none 0 tE
            (Except.ok [(42 : Nat)])).2.cache (cacheKey "SELECT * FROM blocks")).isSome = true →
        tE - 0 ≤ T := by
  rintro ⟨T, hT⟩
  have hpop : (mapGet (executeQueryM defaultSandboxConfig c7EmptyState "SELECT * FROM blocks" none 0
      (T + 1) (Except.ok [(42 : Nat)])).2.cache (cacheKey "SELECT * FROM blocks")).isSome = true := by
    rfl
  have := hT (T + 1) hpop
  omega

/-! ## Claim C5: sliding-window rate limiting -/

/-- Run a trace of `(userId, Date.now())` calls through the rate limiter
(exactly the gate `executeQuery` applies per call) and keep the admitted
calls. -/
def runRLAdmitted (cfg : SandboxConfig) : History → List (String × Int) → List (String × Int)
  | _, [] => []
  | h, c :: rest =>
    let res := checkRateLimit cfg h c.1 c.2
    if res.1 then c :: runRLAdmitted cfg res.2 rest else runRLAdmitted cfg res.2 rest

/-- Membership of a timestamp in the sliding one-minute window ending at `T`. -/
def inWindow (T a : Int) : Bool := decide (T - 60000 < a) && decide (a ≤ T)

theorem checkRateLimit_cases (cfg : SandboxConfig) (h : History) (u : String) (t : Int) :
    (((h u).filter (fun x => decide (t - x < 60000))).length ≥ cfg.rateLimitPerMinute ∧
      checkRateLimit cfg h u t = (false, h)) ∨
    (((h u).filter (fun x => decide (t - x < 60000))).length < cfg.rateLimitPerMinute ∧
      checkRateLimit cfg h u t =
        (true, fun v => if v = u then (h u).filter (fun x => decide (t - x < 60000)) ++ [t] else h v)) := by
  unfold checkRateLimit
  dsimp only
  by_cases hq : ((h u).filter (fun x => decide (t - x < 60000))).length ≥ cfg.rateLimitPerMinute
  · left
    exact ⟨hq, by rw [if_pos hq]⟩
  · right
    exact ⟨by omega, by rw [if_neg hq]⟩

/-- Main sliding-window invariant.  `adm u` is the list of already-admitted
times of user `u` (in order), `m` a lower bound for all remaining call times,
and `h` the limiter's stored history; then after processing any monotone
remaining trace, every user's admitted times contain at most
`rateLimitPerMinute` entries in any one-minute window. -/
theorem runRLAdmitted_cons (cfg : SandboxConfig) (h : History) (c : String × Int)
    (rest : List (String × Int)) :
    runRLAdmitted cfg h (c :: rest) =
      if (checkRateLimit cfg h c.1 c.2).1 then
        c :: runRLAdmitted cfg (checkRateLimit cfg h c.1 c.2).2 rest
      else runRLAdmitted cfg (checkRateLimit cfg h c.1 c.2).2 rest := rfl

theorem runRL_window_bound (cfg : SandboxConfig) :
    ∀ (calls : List (String × Int)) (h : History) (adm : String → List Int) (m : Int),
      List.Pairwise (fun a b => a.2 ≤ b.2) calls →
      (∀ c ∈ calls, m ≤ c.2) →
      (∀ u, ∃ cc : Int, cc + 60000 ≤ m ∧ h u = (adm u).filter (fun a => decide (cc < a))) →
      (∀ u, ∀ a ∈ adm u, a ≤ m) →
      (∀ u T, (adm u).countP (inWindow T) ≤ cfg.rateLimitPerMinute) →
      ∀ u T,
        ((adm u) ++ ((runRLAdmitted cfg h calls).filter (fun c => c.1 == u)).map (·.2)).countP
            (inWindow T) ≤ cfg.rateLimitPerMinute := by
  intro calls
  induction calls with
  | nil =>
    intro h adm m _ _ _ _ hbound u T
    simpa [runRLAdmitted] using hbound u T
  | cons c rest ih =>
    intro h adm m hpair hfut hrep hle hbound u T
    obtain ⟨u₀, t⟩ := c
    rw [List.pairwise_cons] at hpair
    have hmt : m ≤ t := hfut (u₀, t) (List.mem_cons_self _ _)
    have hfut' : ∀ c' ∈ rest, t ≤ c'.2 := fun c' hc' => hpair.1 c' hc'
    obtain ⟨cc, hcc, hhu⟩ := hrep u₀
    have hrecent : (h u₀).filter (fun x => decide (t - x < 60000)) =
        (adm u₀).filter (fun a => decide (t - 60000 < a)) := by
      rw [hhu, List.filter_filter]
      refine List.filter_congr (fun a _ => ?_)
      by_cases hx : t - 60000 < a
      · have h1 : cc < a := by omega
        have h2 : t - a < 60000 := by omega
        simp [hx, h1, h2]
      · have h2 : ¬(t - a < 60000) := by omega
        simp [hx, h2]
    rcases checkRateLimit_cases cfg h u₀ t with ⟨hq, heq⟩ | ⟨hq, heq⟩
    · -- rejected: history and admitted lists unchanged
      have hrun : runRLAdmitted cfg h ((u₀, t) :: rest) = runRLAdmitted cfg h rest := by
        rw [runRLAdmitted_cons, heq]
        rfl
      rw [hrun]
      exact ih h adm t hpair.2 hfut'
        (fun u' => (hrep u').imp (fun cc' hcc' => ⟨by omega, hcc'.2⟩))
        (fun u' a ha => by have := hle u' a ha; omega)
        hbound u T
    · -- admitted: u₀ gains the timestamp t
      have hrun : runRLAdmitted cfg h ((u₀, t) :: rest) =
          (u₀, t) :: runRLAdmitted cfg
            (fun v => if v = u₀ then (h u₀).filter (fun x => decide (t - x < 60000)) ++ [t] else h v)
            rest := by
        rw [runRLAdmitted_cons, heq]
        rfl
      rw [hrun]
      have hquota : ((adm u₀).filter (fun a => decide (t - 60000 < a))).length <
          cfg.rateLimitPerMinute := by
        rw [← hrecent]
        exact hq
      have key := ih
        (fun v => if v = u₀ then (h u₀).filter (fun x => decide (t - x < 60000)) ++ [t] else h v)
        (fun v => if v = u₀ then adm u₀ ++ [t] else adm v)
        t hpair.2 hfut'
        (fun u' => by
          dsimp only
          by_cases hu' : u' = u₀
          · refine ⟨t - 60000, by omega, ?_⟩
            rw [if_pos hu', if_pos hu', hrecent, List.filter_append]
            congr 1
            simp
          · obtain ⟨cc', hcc', hh'⟩ := hrep u'
            exact ⟨cc', by omega, by rw [if_neg hu', if_neg hu']; exact hh'⟩)
        (fun u' a ha => by
          dsimp only at ha
          by_cases hu' : u' = u₀
          · rw [if_pos hu'] at ha
            rcases List.mem_append.mp ha with ha' | ha'
            · have := hle u₀ a ha'; omega
            · simp at ha'; omega
          · rw [if_neg hu'] at ha
            have := hle u' a ha; omega)
        (fun u' T' => by
          dsimp only
          by_cases hu' : u' = u₀
          · rw [if_pos hu', List.countP_append]
            by_cases hw : inWindow T' t = true
            · have hw1 : T' - 60000 < t ∧ t ≤ T' := by
                have := hw
                unfold inWindow at this
                simpa using this
              have hmono : (adm u₀).countP (inWindow T') ≤
                  (adm u₀).countP (fun a => decide (t - 60000 < a)) := by
                refine List.countP_mono_left (fun a ha hwin => ?_)
                have hla := hle u₀ a ha
                unfold inWindow at hwin
                simp at hwin ⊢
                omega
              have hlen : (adm u₀).countP (fun a => decide (t - 60000 < a)) <
                  cfg.rateLimitPerMinute := by
                rw [List.countP_eq_length_filter]
                exact hquota
              have hone : List.countP (inWindow T') [t] ≤ 1 := by
                simp [List.countP_cons]
                split <;> omega
              omega
            · have hzero : List.countP (inWindow T') [t] = 0 := by
                simp [List.countP_cons, hw]
              rw [hzero]
              simpa using hbound u₀ T'
          · rw [if_neg hu']
            exact hbound u' T')
        u T
      by_cases huu : ((u₀, t).1 == u) = true
      · have hu : u = u₀ := (beq_iff_eq.mp huu).symm
        rw [List.filter_cons, if_pos huu, List.map_cons, List.append_cons]
        rw [hu] at key ⊢
        rw [if_pos rfl] at key
        exact key
      · have hne : ¬(u = u₀) := by
          intro he
          exact huu (by simp [he])
        rw [List.filter_cons, if_neg huu]
        rw [if_neg hne] at key
        exact key

/-- Claim C5: (1) over any monotone trace of calls, each user has at most
`rateLimitPerMinute` admitted calls inside every sliding one-minute window;
(2) an excess call in the window returns exactly the rate-limit error with the
sandbox state (history, cache, usage) untouched and without depending on the
storage outcome; (3) once the window rolls over (every stored timestamp is at
least one minute old) the user's next call is admitted again. -/
theorem claim_C5_theorem :
    (∀ (cfg : SandboxConfig) (calls : List (String × Int)),
      List.Pairwise (fun a b => a.2 ≤ b.2) calls →
      ∀ u T,
        (((runRLAdmitted cfg (fun _ => []) calls).filter (fun c => c.1 == u)).map (·.2)).countP
            (inWindow T) ≤ cfg.rateLimitPerMinute) ∧
    (∀ (α : Type) (cfg : SandboxConfig) (s : SandboxState α) (q : String) (u : String)
        (tS tE : Int) (exec : Except String (List α)),
      (checkRateLimit cfg s.history u tS).1 = false →
      executeQueryM cfg s q (some u) tS tE exec =
        ({ success := false, data := none, error := some rateLimitErrorMsg, executionTime := 0
           rowCount := 0, fromCache := false, optimization := none, warnings := [] }, s)) ∧
    (∀ (cfg : SandboxConfig) (h : History) (u : String) (t : Int),
      0 < cfg.rateLimitPerMinute →
      (∀ x ∈ h u, t - x ≥ 60000) →
      (checkRateLimit cfg h u t).1 = true) := by
  refine ⟨?_, ?_, ?_⟩
  · intro cfg calls hpair u T
    cases calls with
    | nil => simp [runRLAdmitted]
    | cons c rest =>
      have hb := runRL_window_bound cfg (c :: rest) (fun _ => []) (fun _ => []) c.2 hpair
        (by
          intro c' hc'
          rcases List.mem_cons.mp hc' with h' | h'
          · rw [h']
          · exact (List.pairwise_cons.mp hpair).1 c' h')
        (fun u' => ⟨c.2 - 60000, by omega, by simp⟩)
        (fun u' a ha => absurd ha (List.not_mem_nil a))
        (fun u' T' => by simp)
        u T
      simpa using hb
  · exact fun α cfg s q u tS tE exec h => executeQueryM_rateLimited cfg s q u tS tE exec h
  · intro cfg h u t hq hall
    have hnil : (h u).filter (fun x => decide (t - x < 60000)) = [] := by
      rw [List.filter_eq_nil_iff]
      intro a ha
      have := hall a ha
      simp
      omega
    unfold checkRateLimit
    dsimp only
    rw [hnil, if_neg (by simp; omega)]

def c5WitnessHistory : History := fun _ => (List.range 60).map (fun i => (i : Int))

def c5WitnessState : SandboxState Nat :=
  { history := c5WitnessHistory, cache := [], usage := zeroUsage }

/-- Claim C5 witness: a user with 60 admitted calls in the last minute is
rejected with the exact rate-limit error and an unchanged state. -/
theorem claim_C5_witness :
    (checkRateLimit defaultSandboxConfig c5WitnessState.history "alice" 100).1 = false ∧
    executeQueryM defaultSandboxConfig c5WitnessState "SELECT * FROM blocks" (some "alice") 100 150
        (Except.ok [(1 : Nat)]) =
      ({ success := false, data := none, error := some rateLimitErrorMsg, executionTime := 0
         rowCount := 0, fromCache := false, optimization := none, warnings := [] }, c5WitnessState) :=
  ⟨by decide,
    claim_C5_theorem.2.1 Nat defaultSandboxConfig c5WitnessState "SELECT * FROM blocks" "alice"
      100 150 (Except.ok [1]) (by decide)⟩

end Stark
